import Mathlib

/-!
# Vehicle dynamics core of `runtime/Physics/Car.cpp`

A shallow embedding of the tire friction model, the gearbox, the aerodynamics, the
anti-roll bar and the per-tick controller (`Car::Create`, `Car::Tick`, `Car::HandleInput`,
`Car::ApplyForces`, `Car::SetWheelTransform`) with the helpers they use.  Floating point numbers are read as elements of a linearly ordered field
(the rationals for evaluation, the reals where `sqrt`, `sin`, `atan` and `atan2`
are needed); decimal literals of the source are the corresponding fractions.
-/

namespace Spartan

/-! ## Bullet vectors and wheel records -/

/-- Three-component vector, the part of Bullet's `btVector3` the car uses. -/
structure btVector3 (α : Type) where
  x : α
  y : α
  z : α

namespace btVector3

variable {α : Type} [LinearOrderedField α]

/-- The vector `btVector3(0, 0, 0)`. -/
def zero : btVector3 α := ⟨0, 0, 0⟩

/-- Bullet `dot`. -/
def dot (a b : btVector3 α) : α := a.x * b.x + a.y * b.y + a.z * b.z

/-- Bullet `cross`. -/
def cross (a b : btVector3 α) : btVector3 α :=
  ⟨a.y * b.z - a.z * b.y, a.z * b.x - a.x * b.z, a.x * b.y - a.y * b.x⟩

/-- Component-wise sum, `operator+`. -/
def add (a b : btVector3 α) : btVector3 α := ⟨a.x + b.x, a.y + b.y, a.z + b.z⟩

/-- Scaling by a scalar, `operator*` with a float on either side. -/
def scale (s : α) (a : btVector3 α) : btVector3 α := ⟨s * a.x, s * a.y, s * a.z⟩

/-- Scaling by a scalar on the right, `operator*(v, s)`. -/
def mulScalar (a : btVector3 α) (s : α) : btVector3 α := ⟨a.x * s, a.y * s, a.z * s⟩

/-- Negation, unary `operator-`. -/
def neg (a : btVector3 α) : btVector3 α := ⟨-a.x, -a.y, -a.z⟩

/-- Bullet `length2`, the squared length. -/
def length2 (a : btVector3 α) : α := a.dot a

/-- Bullet `SIMD_EPSILON` (`FLT_EPSILON`, two to the power -23). -/
def SIMD_EPSILON : α := 1 / 8388608

/-- Bullet `fuzzyZero`: the squared length is below `SIMD_EPSILON` squared. -/
def fuzzyZero (a : btVector3 α) : Bool := decide (a.length2 < SIMD_EPSILON * SIMD_EPSILON)

/-- Bullet `length`. -/
noncomputable def length (a : btVector3 ℝ) : ℝ := Real.sqrt a.length2

/-- Bullet `normalized`: every component divided by the length. -/
noncomputable def normalized (a : btVector3 ℝ) : btVector3 ℝ :=
  ⟨a.x / a.length, a.y / a.length, a.z / a.length⟩

end btVector3

/-- Rows of a Bullet `btMatrix3x3`. -/
structure btMatrix3x3 (α : Type) where
  row0 : btVector3 α
  row1 : btVector3 α
  row2 : btVector3 α

/-- Bullet `getColumn(0)` of a basis matrix. -/
def btMatrix3x3.getColumn0 {α : Type} (m : btMatrix3x3 α) : btVector3 α :=
  ⟨m.row0.x, m.row1.x, m.row2.x⟩

/-- The fields of `btWheelInfo::RaycastInfo` read by the car. -/
structure RaycastInfo (α : Type) where
  m_contactPointWS : btVector3 α
  m_wheelAxleWS : btVector3 α
  m_suspensionLength : α
  m_isInContact : Bool

/-- The fields of Bullet's `btWheelInfo` read by the car. -/
structure btWheelInfo (α : Type) where
  m_raycastInfo : RaycastInfo α
  m_worldTransform_basis : btMatrix3x3 α
  m_wheelsRadius : α
  m_wheelsSuspensionForce : α
  m_deltaRotation : α

/-- The chassis `btRigidBody`: the two velocities the car reads from it. -/
structure btRigidBody (α : Type) where
  m_linearVelocity : btVector3 α
  m_angularVelocity : btVector3 α

/-- Bullet `btRigidBody::getVelocityInLocalPoint`. -/
def btRigidBody.getVelocityInLocalPoint {α : Type} [LinearOrderedField α] (b : btRigidBody α)
    (rel_pos : btVector3 α) : btVector3 α :=
  b.m_linearVelocity.add (b.m_angularVelocity.cross rel_pos)

/-! ## `Math::Helper` (declared outside the translated sources) -/

namespace Math.Helper

variable {α : Type} [LinearOrderedField α]

/-- Modelled from the spec: `Math::Helper::Clamp` is not among the sources; the spec
uses it as clamping a value into the closed interval between a lower and an upper
bound. -/
def Clamp (x a b : α) : α := if x < a then a else if x > b then b else x

/-- Modelled from the spec: `Math::Helper::PI` is not among the sources; the spec
divides the slip angle by the circle constant. -/
noncomputable def PI : ℝ := Real.pi

/-- The C library `atan2(y, x)` read on the reals: the angle of the point `(x, y)`,
in the interval from minus pi (excluded) to pi, and 0 at the origin. -/
noncomputable def atan2 (y x : ℝ) : ℝ := Complex.arg ⟨x, y⟩

end Math.Helper

/-! ## namespace `tire_friction_model` -/

namespace tire_friction_model

open Math.Helper

variable {α : Type} [LinearOrderedField α]

/-- Source `tire_friction_model::compute_slip_ratio`; `SMALL_FLOAT` stands for
`Math::Helper::SMALL_FLOAT`, whose value is declared outside the sources.  The quotient
is the one of the field: it is the quotient of the source wherever the divisor
`denominator + SMALL_FLOAT` is not 0; where the divisor is 0 the source has no real
quotient, which `compute_slip_ratio_checked` makes explicit. -/
def compute_slip_ratio (SMALL_FLOAT : α) (_wheel_info : btWheelInfo α)
    (wheel_forward wheel_velocity vehicle_velocity : btVector3 α) : α :=
  let velocity_forward := vehicle_velocity.dot wheel_forward
  let velocity_wheel := wheel_velocity.dot wheel_forward
  let nominator := velocity_wheel - velocity_forward
  let denominator := velocity_forward
  Clamp ((nominator + SMALL_FLOAT) / (denominator + SMALL_FLOAT)) (-1) 1

/-- Dividend `nominator + Math::Helper::SMALL_FLOAT` of the quotient in the return
statement of `tire_friction_model::compute_slip_ratio`. -/
def compute_slip_ratio_dividend (SMALL_FLOAT : α)
    (wheel_forward wheel_velocity vehicle_velocity : btVector3 α) : α :=
  let velocity_forward := vehicle_velocity.dot wheel_forward
  let velocity_wheel := wheel_velocity.dot wheel_forward
  let nominator := velocity_wheel - velocity_forward
  nominator + SMALL_FLOAT

/-- Divisor `denominator + Math::Helper::SMALL_FLOAT` of the quotient in the return
statement of `tire_friction_model::compute_slip_ratio`. -/
def compute_slip_ratio_divisor (SMALL_FLOAT : α)
    (wheel_forward vehicle_velocity : btVector3 α) : α :=
  let velocity_forward := vehicle_velocity.dot wheel_forward
  let denominator := velocity_forward
  denominator + SMALL_FLOAT

/-- Source `tire_friction_model::compute_slip_ratio` with the division as a fallible
operation: the clamped quotient where the divisor is not 0, and no value where the
source divides by 0 (the `float` division then gives an infinity, or NaN for 0/0, and not
a real quotient). -/
def compute_slip_ratio_checked (SMALL_FLOAT : α) (_wheel_info : btWheelInfo α)
    (wheel_forward wheel_velocity vehicle_velocity : btVector3 α) : Option α :=
  let velocity_forward := vehicle_velocity.dot wheel_forward
  let velocity_wheel := wheel_velocity.dot wheel_forward
  let nominator := velocity_wheel - velocity_forward
  let denominator := velocity_forward
  if denominator + SMALL_FLOAT = 0 then none
  else some (Clamp ((nominator + SMALL_FLOAT) / (denominator + SMALL_FLOAT)) (-1) 1)

/-- Source `tire_friction_model::compute_slip_angle`. -/
noncomputable def compute_slip_angle (SMALL_FLOAT : ℝ) (_wheel_info : btWheelInfo ℝ)
    (wheel_forward wheel_side vehicle_velocity : btVector3 ℝ) : ℝ :=
  let vehicle_velocity_normalized :=
    if vehicle_velocity.fuzzyZero then (⟨0, 0, 0⟩ : btVector3 ℝ) else vehicle_velocity.normalized
  let vehicle_dot_wheel_forward := vehicle_velocity_normalized.dot wheel_forward
  let vehicle_dot_wheel_side := vehicle_velocity_normalized.dot wheel_side
  let slip_angle :=
    atan2 (vehicle_dot_wheel_side + SMALL_FLOAT) (vehicle_dot_wheel_forward + SMALL_FLOAT)
  slip_angle / PI

end tire_friction_model

/-! ## namespace `tuning` -/

namespace tuning

variable {α : Type} [LinearOrderedField α]

/-- Source `tuning::engine_torque_max`. -/
def engine_torque_max : α := 1471 / 10
/-- Source `tuning::engine_max_rpm`. -/
def engine_max_rpm : α := 7600
/-- Source `tuning::engine_idle_rpm`. -/
def engine_idle_rpm : α := 900
/-- Source `tuning::engine_torque_map`. -/
def engine_torque_map : List (α × α) :=
  [(1000, 2 / 10), (2000, 4 / 10), (3000, 65 / 100), (4000, 9 / 10), (5000, 1),
    (6000, 9 / 10), (7000, 75 / 100)]
/-- Source `tuning::gearbox_ratios`. -/
def gearbox_ratios : List α := [3166 / 1000, 1904 / 1000, 131 / 100, 969 / 1000, 815 / 1000]
/-- Source `tuning::gearbox_ratio_reverse`. -/
def gearbox_ratio_reverse : α := 325 / 100
/-- Source `tuning::gearbox_final_drive`. -/
def gearbox_final_drive : α := 4312 / 1000
/-- Source `tuning::gearbox_rpm_upshift`. -/
def gearbox_rpm_upshift : α := engine_max_rpm * (9 / 10)
/-- Source `tuning::gearbox_rpm_downshift`. -/
def gearbox_rpm_downshift : α := engine_max_rpm * (2 / 10)
/-- Source `tuning::gearbox_shift_delay`. -/
def gearbox_shift_delay : α := 3 / 10
/-- Source `tuning::transmission_efficiency`. -/
def transmission_efficiency : α := 98 / 100
/-- Source `tuning::anti_roll_bar_stiffness_front`. -/
def anti_roll_bar_stiffness_front : α := 500
/-- Source `tuning::anti_roll_bar_stiffness_rear`. -/
def anti_roll_bar_stiffness_rear : α := 300
/-- Source `tuning::brake_force_max`. -/
def brake_force_max : α := 800
/-- Source `tuning::brake_ramp_speed`. -/
def brake_ramp_speed : α := 5000
/-- Source `tuning::steering_return_speed`. -/
def steering_return_speed : α := 5
/-- Source `tuning::aerodynamics_air_density`. -/
def aerodynamics_air_density : α := 1225 / 1000
/-- Source `tuning::aerodynamics_car_drag_coefficient`. -/
def aerodynamics_car_drag_coefficient : α := 34 / 100
/-- Source `tuning::aerodynamics_car_frontal_area`. -/
def aerodynamics_car_frontal_area : α := 19 / 10
/-- Source `tuning::aerodynamic_downforce`. -/
def aerodynamic_downforce : α := 2 / 10
/-- Source `tuning::wheel_radius`. -/
def wheel_radius : α := 25 / 100
/-- Source `tuning::tire_friction`. -/
def tire_friction : α := 2

end tuning

/-! ## namespace `bullet_interface` -/

namespace bullet_interface

/-- Source `bullet_interface::compute_wheel_direction_forward`. -/
noncomputable def compute_wheel_direction_forward (wheel_info : btWheelInfo ℝ) : btVector3 ℝ :=
  let forward_right_handed := wheel_info.m_worldTransform_basis.getColumn0.normalized
  ⟨forward_right_handed.z, 0, -forward_right_handed.x⟩

/-- Source `bullet_interface::compute_wheel_direction_right`. -/
noncomputable def compute_wheel_direction_right (wheel_info : btWheelInfo ℝ) : btVector3 ℝ :=
  (compute_wheel_direction_forward wheel_info).cross ⟨0, 1, 0⟩

/-- Source `bullet_interface::compute_wheel_velocity`. -/
def compute_wheel_velocity {α : Type} [LinearOrderedField α] (wheel_info : btWheelInfo α)
    (m_vehicle_chassis : btRigidBody α) : btVector3 α :=
  let wheel_radius := wheel_info.m_wheelsRadius
  let velocity_angular :=
    (m_vehicle_chassis.m_angularVelocity.cross wheel_info.m_raycastInfo.m_wheelAxleWS.neg).mulScalar
      wheel_radius
  let velocity_linear :=
    m_vehicle_chassis.getVelocityInLocalPoint wheel_info.m_raycastInfo.m_contactPointWS
  let velocity_total := velocity_angular.add velocity_linear
  ⟨velocity_total.x, 0, velocity_total.z⟩

/-- Source `bullet_interface::adjust_tire_friction`. -/
def adjust_tire_friction {α : Type} [LinearOrderedField α] (tire_friction_force : btVector3 α) :
    btVector3 α :=
  let bullet_inaccuracy_fix : α := 1
  tire_friction_force.mulScalar bullet_inaccuracy_fix

/-- Source `bullet_interface::adjust_break_force`. -/
def adjust_break_force {α : Type} [LinearOrderedField α] (break_force : α) : α :=
  let bullet_inaccuracy_fix : α := 1 / 10
  break_force * bullet_inaccuracy_fix

end bullet_interface

/-! ## `compute_pacejka_force` and `compute_tire_force` -/

namespace tire_friction_model

open Math.Helper

/-- Source `tire_friction_model::compute_pacejka_force`; `SMALL_FLOAT` and `Sign` stand
for `Math::Helper::SMALL_FLOAT` and `Math::Helper::Sign`, declared outside the sources. -/
noncomputable def compute_pacejka_force (SMALL_FLOAT : ℝ) (Sign : ℝ → ℝ) (slip normal_load : ℝ) :
    ℝ :=
  let slip := slip * 100
  let normal_load := (normal_load + SMALL_FLOAT) * (1 / 1000)
  let b0 : ℝ := 15 / 10
  let b1 : ℝ := 0
  let b2 : ℝ := 1
  let b3 : ℝ := 0
  let b4 : ℝ := 300
  let b5 : ℝ := 0
  let b6 : ℝ := 0
  let b7 : ℝ := 0
  let b8 : ℝ := -2
  let b9 : ℝ := 0
  let b10 : ℝ := 0
  let b11 : ℝ := 0
  let b12 : ℝ := 0
  let b13 : ℝ := 0
  let Fz := normal_load
  let C := b0
  let D := Fz * (b1 * Fz + b2)
  let BCD := (b3 * Fz * Fz + b4 * Fz) * Real.exp (-b5 * Fz)
  let B := BCD / (C * D)
  let E := (b6 * Fz * Fz + b7 * Fz + b8) * (1 - b13 * Sign (slip + (b9 * Fz + b10)))
  let H := b9 * Fz + b10
  let V := b11 * Fz + b12
  let Bx1 := B * (slip + H)
  D * Real.sin (C * Real.arctan (Bx1 - E * (Bx1 - Real.arctan Bx1))) + V

/-- Source `tire_friction_model::compute_tire_force`; the two out-parameters `force` and
`force_position` are returned as a pair. -/
noncomputable def compute_tire_force (SMALL_FLOAT : ℝ) (Sign : ℝ → ℝ) (wheel_info : btWheelInfo ℝ)
    (wheel_velocity vehicle_velocity : btVector3 ℝ) : btVector3 ℝ × btVector3 ℝ :=
  let wheel_forward_dir := bullet_interface.compute_wheel_direction_forward wheel_info
  let wheel_right_dir := bullet_interface.compute_wheel_direction_right wheel_info
  let normal_load := wheel_info.m_wheelsSuspensionForce
  let slip_ratio :=
    compute_slip_ratio SMALL_FLOAT wheel_info wheel_forward_dir wheel_velocity vehicle_velocity
  let slip_angle :=
    compute_slip_angle SMALL_FLOAT wheel_info wheel_forward_dir wheel_right_dir vehicle_velocity
  let fz := compute_pacejka_force SMALL_FLOAT Sign slip_ratio normal_load
  let fx := compute_pacejka_force SMALL_FLOAT Sign slip_angle normal_load
  let wheel_force :=
    (wheel_forward_dir.scale fz).add ((wheel_right_dir.scale fx).mulScalar tuning.tire_friction)
  (bullet_interface.adjust_tire_friction ⟨wheel_force.x, 0, wheel_force.z⟩,
    wheel_info.m_raycastInfo.m_contactPointWS)

/-- The force formula of the specification, in its own words: `C = b0 = 1.5`,
`D = Fz * b2` with `b2 = 1`, `BCD = Fz ^ 2 * b4` with `b4 = 300`, `B = BCD / (C * D)`
and `b8 = -2`, at the slip percentage `s` and the load `Fz` in kilonewtons. -/
noncomputable def pacejka_force_as_specified (s Fz : ℝ) : ℝ :=
  let b0 : ℝ := 15 / 10
  let b2 : ℝ := 1
  let b4 : ℝ := 300
  let b8 : ℝ := -2
  let C := b0
  let D := Fz * b2
  let BCD := Fz ^ 2 * b4
  let B := BCD / (C * D)
  D * Real.sin (C * Real.arctan (B * s - b8 * (B * s - Real.arctan (B * s))))

end tire_friction_model

/-! ## `Car::ApplyForces`, tire friction loop -/

namespace Car

/-- Body of the tire friction loop of `Car::ApplyForces` for one wheel: the force and the
position handed to `applyForce`, or nothing when the wheel is skipped. -/
noncomputable def ApplyForces_tire_force_of_wheel (SMALL_FLOAT : ℝ) (Sign : ℝ → ℝ)
    (m_vehicle_chassis : btRigidBody ℝ) (wheel_info : btWheelInfo ℝ) :
    Option (btVector3 ℝ × btVector3 ℝ) :=
  let velocity_vehicle : btVector3 ℝ :=
    ⟨m_vehicle_chassis.m_linearVelocity.x, 0, m_vehicle_chassis.m_linearVelocity.z⟩
  if wheel_info.m_raycastInfo.m_isInContact then
    let velocity_wheel := bullet_interface.compute_wheel_velocity wheel_info m_vehicle_chassis
    some (tire_friction_model.compute_tire_force SMALL_FLOAT Sign wheel_info velocity_wheel
      velocity_vehicle)
  else none

/-- The tire friction loop of `Car::ApplyForces` over the wheels of the vehicle: the list
of `applyForce` calls it makes on the chassis, in order. -/
noncomputable def ApplyForces_tire_friction (SMALL_FLOAT : ℝ) (Sign : ℝ → ℝ)
    (m_vehicle_chassis : btRigidBody ℝ) (wheels : List (btWheelInfo ℝ)) :
    List (btVector3 ℝ × btVector3 ℝ) :=
  wheels.filterMap (ApplyForces_tire_force_of_wheel SMALL_FLOAT Sign m_vehicle_chassis)

end Car

/-! ## namespace `gearbox` -/

namespace gearbox

variable {α : Type} [LinearOrderedField α]

/-- The gearbox variables `compute_gear_and_gear_ratio` receives by reference. -/
structure GearboxState (α : Type) where
  engine_rpm : α
  current_gear : Int
  gear_ratio : α
  last_shift_time : α
  is_shifting : Bool

/-- The element count `sizeof(gearbox_ratios) / sizeof(gearbox_ratios[0])`. -/
def gearbox_ratios_count : Int := 5

/-- Conversion of the `int32_t` gear to the unsigned 64-bit `size_t` the element count
has, as C++ does before comparing the two. -/
def to_size_t (n : Int) : Int := n % 2 ^ 64

/-- The read `tuning::gearbox_ratios[i]`, defined only for an index inside the array. -/
def gearbox_ratios_at (i : Int) : Option α :=
  if 0 ≤ i then (tuning.gearbox_ratios : List α)[i.toNat]? else none

/-- The value of `current_gear` after the throttle block of `compute_gear_and_gear_ratio`
(reverse for a negative throttle, first gear when a positive throttle meets neutral or
reverse), before the rpm thresholds are looked at. -/
def gear_selected_by_throttle (current_gear : Int) (throttle_input : α) : Int :=
  if throttle_input < 0 then -1
  else if throttle_input > 0 then (if current_gear ≤ 0 then 1 else current_gear)
  else current_gear

/-- Source `gearbox::compute_gear_and_gear_ratio`.  `delta_time_seconds` is the value of
`Timer::GetDeltaTimeSec()`.  A read of `gearbox_ratios` outside the array has no defined
value in C++; the model lets it yield the arbitrary value `out_of_bounds_read`, so that
the rest of the tick can still be followed. -/
def compute_gear_and_gear_ratio (out_of_bounds_read delta_time_seconds : α)
    (s : GearboxState α) (throttle_input : α) : GearboxState α :=
  if !s.is_shifting then
    let current_gear : Int :=
      if throttle_input < 0 then -1
      else if throttle_input > 0 then (if s.current_gear ≤ 0 then 1 else s.current_gear)
      else s.current_gear
    let gear_ratio : α :=
      if current_gear = -1 then tuning.gearbox_ratio_reverse * tuning.gearbox_final_drive
      else (gearbox_ratios_at (current_gear - 1)).getD out_of_bounds_read *
        tuning.gearbox_final_drive
    if s.engine_rpm > tuning.gearbox_rpm_upshift ∧ to_size_t current_gear < gearbox_ratios_count
    then
      { s with current_gear := current_gear + 1, gear_ratio := gear_ratio,
               last_shift_time := s.last_shift_time + delta_time_seconds, is_shifting := true }
    else if s.engine_rpm < tuning.gearbox_rpm_downshift ∧ current_gear > 1 then
      { s with current_gear := current_gear - 1, gear_ratio := gear_ratio,
               last_shift_time := s.last_shift_time + delta_time_seconds, is_shifting := true }
    else
      { s with current_gear := current_gear, gear_ratio := gear_ratio }
  else
    let last_shift_time := s.last_shift_time - delta_time_seconds
    if last_shift_time ≤ 0 then
      { s with is_shifting := false, last_shift_time := 0 }
    else
      { s with last_shift_time := last_shift_time }

end gearbox

/-! ## Further `Math::Helper` functions and the steering limit -/

namespace Math.Helper

variable {α : Type} [LinearOrderedField α]

/-- Modelled from the spec: `Math::Helper::Abs` is not among the sources; the spec
multiplies the torque by the absolute value of the throttle. -/
def Abs (x : α) : α := if x < 0 then -x else x

/-- Modelled from the spec: `Math::Helper::Min` is not among the sources; the spec clamps
the brake force from above with it. -/
def Min (a b : α) : α := if a < b then a else b

/-- Modelled from the spec: `Math::Helper::Max` is not among the sources; the spec clamps
the brake force from below with it. -/
def Max (a b : α) : α := if a > b then a else b

/-- Modelled from the spec: `Math::Helper::Lerp` is not among the sources; the spec has the
steering angle linearly interpolated toward the target, `Lerp(x, y, s) = x + (y - x) * s`. -/
def Lerp (lhs rhs t : α) : α := lhs + (rhs - lhs) * t

/-- Modelled from the spec: `Math::Helper::DEG_TO_RAD` is not among the sources; the spec
gives the maximum steering angle in radians. -/
noncomputable def DEG_TO_RAD : ℝ := PI / 180

end Math.Helper

/-- Source `tuning::steering_angle_max`. -/
noncomputable def tuning.steering_angle_max : ℝ := 40 * Math.Helper.DEG_TO_RAD

/-! ## `torque_curve` and `compute_torque` -/

namespace gearbox

open Math.Helper

variable {α : Type} [LinearOrderedField α]

/-- The interpolation loop of `gearbox::torque_curve` over adjacent points of the map:
the value returned by the first pair that encloses the rpm, or nothing when the loop
runs to its end. -/
def torque_curve_loop (engine_rpm : α) : List (α × α) → Option α
  | p :: q :: rest =>
    let x1 := p.1
    let y1 := p.2
    let x2 := q.1
    let y2 := q.2
    if engine_rpm ≥ x1 ∧ engine_rpm ≤ x2 then
      let t := (engine_rpm - x1) / (x2 - x1)
      some (y1 + t * (y2 - y1))
    else torque_curve_loop engine_rpm (q :: rest)
  | _ => none

/-- Source `gearbox::torque_curve`. -/
def torque_curve (engine_rpm : α) : α :=
  let x1 := ((tuning.engine_torque_map : List (α × α)).headD (0, 0)).1
  let y1 := ((tuning.engine_torque_map : List (α × α)).headD (0, 0)).2
  let x2 := ((tuning.engine_torque_map : List (α × α)).getLastD (0, 0)).1
  let y2 := ((tuning.engine_torque_map : List (α × α)).getLastD (0, 0)).2
  if engine_rpm < x1 then
    let slope := (y1 - tuning.engine_idle_rpm) / (x1 - tuning.engine_idle_rpm)
    tuning.engine_idle_rpm + slope * (engine_rpm - tuning.engine_idle_rpm)
  else if engine_rpm > x2 then y2
  else (torque_curve_loop engine_rpm tuning.engine_torque_map).getD 0

/-- Source `gearbox::compute_torque`: the torque returned and the gearbox variables it
leaves.  `wheel_info` is `vehicle->getWheelInfo(0)` and `delta_time_seconds` the value of
`Timer::GetDeltaTimeSec()`. -/
noncomputable def compute_torque (out_of_bounds_read delta_time_seconds : ℝ)
    (s : GearboxState ℝ) (throttle_input : ℝ) (wheel_info : btWheelInfo ℝ) :
    ℝ × GearboxState ℝ :=
  let s1 := compute_gear_and_gear_ratio out_of_bounds_read delta_time_seconds s throttle_input
  let wheel_angular_velocity := wheel_info.m_deltaRotation / delta_time_seconds
  let engine_rpm :=
    tuning.engine_idle_rpm + (wheel_angular_velocity * 60) / (2 * PI) * s1.gear_ratio * 2
  let engine_rpm := Clamp engine_rpm tuning.engine_idle_rpm tuning.engine_max_rpm
  let torque := torque_curve engine_rpm * 20
  (Abs throttle_input * torque * tuning.transmission_efficiency * tuning.engine_torque_max,
    { s1 with engine_rpm := engine_rpm })

end gearbox

/-! ## namespace `aerodynamics` -/

namespace aerodynamics

variable {α : Type} [LinearOrderedField α]

/-- Source `aerodynamics::compute_downforce`. -/
def compute_downforce (speed_meters_per_second : α) : α :=
  tuning.aerodynamic_downforce * speed_meters_per_second * speed_meters_per_second

/-- Source `aerodynamics::compute_drag`. -/
def compute_drag (speed_meters_per_second : α) : α :=
  let car_factor : α :=
    tuning.aerodynamics_car_drag_coefficient * tuning.aerodynamics_car_frontal_area
  let speed2 := speed_meters_per_second * speed_meters_per_second
  1 / 2 * car_factor * tuning.aerodynamics_air_density * speed2

end aerodynamics

/-! ## namespace `anti_roll_bar` -/

namespace anti_roll_bar

variable {α : Type} [LinearOrderedField α]

/-- Source `anti_roll_bar::apply`: the list of `chassis->applyForce(force, position)` calls
it makes, in order.  `wheel_info1` and `wheel_info2` are the records
`vehicle->getWheelInfo(wheel_index_1)` and `vehicle->getWheelInfo(wheel_index_2)`. -/
def apply (wheel_info1 wheel_info2 : btWheelInfo α) (force : α) :
    List (btVector3 α × btVector3 α) :=
  let anti_roll_force : α :=
    if wheel_info1.m_raycastInfo.m_isInContact && wheel_info2.m_raycastInfo.m_isInContact then
      let suspension_difference :=
        wheel_info1.m_raycastInfo.m_suspensionLength - wheel_info2.m_raycastInfo.m_suspensionLength
      suspension_difference * force
    else if !wheel_info1.m_raycastInfo.m_isInContact then -force
    else if !wheel_info2.m_raycastInfo.m_isInContact then force
    else 0
  (if wheel_info1.m_raycastInfo.m_isInContact then
      [((⟨0, anti_roll_force, 0⟩ : btVector3 α), wheel_info1.m_raycastInfo.m_contactPointWS)]
    else []) ++
  (if wheel_info2.m_raycastInfo.m_isInContact then
      [((⟨0, -anti_roll_force, 0⟩ : btVector3 α), wheel_info2.m_raycastInfo.m_contactPointWS)]
    else [])

end anti_roll_bar

/-! ## `Car::HandleInput` and `Car::ApplyForces`: steering, anti-roll bars, brake -/

namespace Car

open Math.Helper

variable {α : Type} [LinearOrderedField α]

/-- The target angle chosen in the steering block of `Car::HandleInput`; `steer_left` is
`Input::GetKey(Arrow_Left) || GetControllerThumbStickLeft().x < 0` and `steer_right` the same
for the right side. -/
noncomputable def HandleInput_steering_angle_target (steer_left steer_right : Bool) : ℝ :=
  if steer_left then -tuning.steering_angle_max
  else if steer_right then tuning.steering_angle_max
  else 0

/-- The value of `m_steering_angle` after the steering block of `Car::HandleInput`. -/
noncomputable def HandleInput_steering_angle (steer_left steer_right : Bool)
    (delta_time_sec m_steering_angle : ℝ) : ℝ :=
  Lerp m_steering_angle (HandleInput_steering_angle_target steer_left steer_right)
    (tuning.steering_return_speed * delta_time_sec)

/-- The anti-roll bar block of `Car::ApplyForces`: the front pair, then the rear pair. -/
def ApplyForces_anti_roll_bar (wheel_fl wheel_fr wheel_rl wheel_rr : btWheelInfo α) :
    List (btVector3 α × btVector3 α) :=
  anti_roll_bar.apply wheel_fl wheel_fr tuning.anti_roll_bar_stiffness_front ++
    anti_roll_bar.apply wheel_rl wheel_rr tuning.anti_roll_bar_stiffness_rear

/-- The value of `m_break_force` after the braking block of `Car::ApplyForces`; `key_space`
is `Input::GetKey(KeyCode::Space)`. -/
def ApplyForces_break_force (key_space m_break_until_opposite_torque : Bool)
    (delta_time_sec m_break_force : α) : α :=
  let breaking : α := if key_space then 1 else 0
  let breaking : α := if m_break_until_opposite_torque then 1 else breaking
  if breaking > 0 then
    Min (m_break_force + tuning.brake_ramp_speed * delta_time_sec * breaking)
      tuning.brake_force_max
  else
    Max (m_break_force - tuning.brake_ramp_speed * delta_time_sec) 0

/-- The brake force after a sequence of ticks, each given by the space key, the
`m_break_until_opposite_torque` flag and the tick time. -/
def break_force_after_ticks (ticks : List (Bool × Bool × α)) (m_break_force : α) : α :=
  ticks.foldl (fun b t => ApplyForces_break_force t.1 t.2.1 t.2.2 b) m_break_force

end Car

/-! ## `Car`: runtime state, `Create`, `SetWheelTransform`, `Tick` -/

/-- Source enum `CarMovementState`. -/
inductive CarMovementState where
  | Forward
  | Backward
  | Stationary
  deriving DecidableEq

/-- The part of Bullet's `btRaycastVehicle` the car reads: the chassis pointer (possibly
null), the four wheels `Car::Create` adds (indices `wheel_fl` to `wheel_rr`) and the
current speed. -/
structure btRaycastVehicle (α : Type) where
  m_chassisBody : Option (btRigidBody α)
  wheel_fl : btWheelInfo α
  wheel_fr : btWheelInfo α
  wheel_rl : btWheelInfo α
  wheel_rr : btWheelInfo α
  m_currentVehicleSpeedKmHour : α

/-- The input polled in one tick: `accelerate` is
`Input::GetKey(Arrow_Up) || GetControllerTriggerRight() != 0`, `reverse` is
`Input::GetKey(Arrow_Down) || GetControllerTriggerLeft() != 0`, `steer_left` and
`steer_right` the two steering conditions, `key_space` is `Input::GetKey(Space)`. -/
structure Input where
  accelerate : Bool
  reverse : Bool
  steer_left : Bool
  steer_right : Bool
  key_space : Bool

/-- The member variables of `Car` the simulation reads and writes; null pointers are
`none`. -/
structure Car (α : Type) where
  m_vehicle : Option (btRaycastVehicle α)
  m_vehicle_chassis : Option (btRigidBody α)
  m_throttle : α
  m_engine_rpm : α
  m_gear : Int
  m_gear_ratio : α
  m_last_shift_time : α
  m_is_shifting : Bool
  m_engine_torque : α
  m_steering_angle : α
  m_break_force : α
  m_break_until_opposite_torque : Bool
  m_movement_direction : CarMovementState
  m_aerodynamics_drag : α
  m_aerodynamics_drg : α

namespace Car

open Math.Helper

variable {α : Type} [LinearOrderedField α]

/-- Source `Car::Create`, as far as the members of `Car` go: the chassis pointer is stored
and `m_vehicle` is replaced by the newly constructed vehicle.  `new_vehicle` is the object
`new btRaycastVehicle(vehicle_tuning, m_vehicle_chassis, vehicle_ray_caster)` after the four
`addWheel` calls, which Bullet builds. -/
def Create (new_vehicle : btRaycastVehicle α) (chassis : Option (btRigidBody α)) (car : Car α) :
    Car α :=
  { car with m_vehicle_chassis := chassis
             m_vehicle := some { new_vehicle with m_chassisBody := chassis } }

/-- The C++ `std::vector::resize` on a vector of pointers: cut to `n` entries or filled up
with null pointers. -/
def vector_resize {T : Type} (l : List (Option T)) (n : Nat) : List (Option T) :=
  l.take n ++ List.replicate (n - l.length) none

/-- Source `Car::SetWheelTransform`; `wheel_index` is a `uint32_t`, so `wheel_index + 1`
wraps at `2 ^ 32`. -/
def SetWheelTransform {T : Type} (m_vehicle_wheel_transforms : List (Option T))
    (transform : Option T) (wheel_index : Nat) : List (Option T) :=
  let resized :=
    if wheel_index ≥ m_vehicle_wheel_transforms.length then
      vector_resize m_vehicle_wheel_transforms ((wheel_index + 1) % 2 ^ 32)
    else m_vehicle_wheel_transforms
  resized.set wheel_index transform

/-- The wheel loop of `Car::UpdateTransforms`: the wheel indices for which it calls
`m_vehicle->updateWheelTransform` and `m_vehicle->getWheelInfo`, in order. -/
def UpdateTransforms_wheel_queries {T : Type} (m_vehicle_wheel_transforms : List (Option T)) :
    List Nat :=
  (List.range m_vehicle_wheel_transforms.length).filter
    (fun wheel_index => (m_vehicle_wheel_transforms.getD wheel_index none).isSome)

/-- Source `Car::GetSpeedMetersPerSecond`. -/
def GetSpeedMetersPerSecond (vehicle : btRaycastVehicle α) : α :=
  vehicle.m_currentVehicleSpeedKmHour * (1000 / 3600)

/-- The movement state computed at the start of `Car::Tick`. -/
def Tick_movement_direction (speed_meters_per_second : α) : CarMovementState :=
  if speed_meters_per_second > 1 / 10 then CarMovementState.Forward
  else if speed_meters_per_second < -(1 / 10) then CarMovementState.Backward
  else CarMovementState.Stationary

/-- The throttle block of `Car::HandleInput`: the values of `m_throttle` and
`m_break_until_opposite_torque` it leaves. -/
def HandleInput_throttle (speed_meters_per_second : α) (m_movement_direction : CarMovementState)
    (accelerate reverse : Bool) (m_throttle : α) (m_break_until_opposite_torque : Bool) :
    α × Bool :=
  let m_break_until_opposite_torque :=
    if Abs speed_meters_per_second < 1 / 10 then false else m_break_until_opposite_torque
  if accelerate then
    if m_movement_direction = CarMovementState.Backward then (m_throttle, true)
    else (1, m_break_until_opposite_torque)
  else if reverse then
    if m_movement_direction = CarMovementState.Forward then (m_throttle, true)
    else (-1, m_break_until_opposite_torque)
  else (m_throttle, false)

/-- Source `Car::HandleInput`: the members of `Car` after it.  `vehicle` is the object
`m_vehicle` points to. -/
noncomputable def HandleInput (out_of_bounds_read delta_time_sec : ℝ) (input : Input)
    (vehicle : btRaycastVehicle ℝ) (car : Car ℝ) : Car ℝ :=
  let throttle_and_break :=
    HandleInput_throttle (GetSpeedMetersPerSecond vehicle) car.m_movement_direction
      input.accelerate input.reverse car.m_throttle car.m_break_until_opposite_torque
  let torque_and_gearbox :=
    gearbox.compute_torque out_of_bounds_read delta_time_sec
      ⟨car.m_engine_rpm, car.m_gear, car.m_gear_ratio, car.m_last_shift_time, car.m_is_shifting⟩
      throttle_and_break.1 vehicle.wheel_fl
  { car with
    m_throttle := throttle_and_break.1
    m_break_until_opposite_torque := throttle_and_break.2
    m_engine_torque := torque_and_gearbox.1
    m_engine_rpm := torque_and_gearbox.2.engine_rpm
    m_gear := torque_and_gearbox.2.current_gear
    m_gear_ratio := torque_and_gearbox.2.gear_ratio
    m_last_shift_time := torque_and_gearbox.2.last_shift_time
    m_is_shifting := torque_and_gearbox.2.is_shifting
    m_steering_angle :=
      HandleInput_steering_angle input.steer_left input.steer_right delta_time_sec
        car.m_steering_angle }

/-- Source `Car::ApplyForces`: the members of `Car` after it, or nothing when
`m_vehicle_chassis` is null, which `ApplyForces` dereferences in its first statements. -/
def ApplyForces (delta_time_sec : α) (input : Input) (vehicle : btRaycastVehicle α)
    (car : Car α) : Option (Car α) :=
  match car.m_vehicle_chassis with
  | none => none
  | some _ =>
    some { car with
      m_aerodynamics_drag := aerodynamics.compute_downforce (GetSpeedMetersPerSecond vehicle)
      m_aerodynamics_drg := aerodynamics.compute_drag (GetSpeedMetersPerSecond vehicle)
      m_break_force :=
        ApplyForces_break_force input.key_space car.m_break_until_opposite_torque delta_time_sec
          car.m_break_force }

/-- The first part of `Car::Tick` with a vehicle: the movement state is computed from the
speed and `HandleInput` runs. -/
noncomputable def Tick_HandleInput (out_of_bounds_read delta_time_sec : ℝ) (input : Input)
    (vehicle : btRaycastVehicle ℝ) (car : Car ℝ) : Car ℝ :=
  HandleInput out_of_bounds_read delta_time_sec input vehicle
    { car with
      m_movement_direction := Tick_movement_direction (GetSpeedMetersPerSecond vehicle) }

/-- Source `Car::Tick`: the members of `Car` after it (unchanged without a vehicle), or
nothing when the tick dereferences a null chassis. -/
noncomputable def Tick (out_of_bounds_read delta_time_sec : ℝ) (input : Input) (car : Car ℝ) :
    Option (Car ℝ) :=
  match car.m_vehicle with
  | none => some car
  | some vehicle =>
    ApplyForces delta_time_sec input vehicle
      (Tick_HandleInput out_of_bounds_read delta_time_sec input vehicle car)

/-- A wheel in contact, upright, that turned by 2/5 rad in the last tick (80 rad/s at a
tick of 1/200 s, a wheel of radius 0.25 m rolling at 20 m/s). -/
noncomputable def example_wheel : btWheelInfo ℝ :=
  ⟨⟨⟨0, 0, 0⟩, ⟨1, 0, 0⟩, 7 / 25, true⟩, ⟨⟨1, 0, 0⟩, ⟨0, 1, 0⟩, ⟨0, 0, 1⟩⟩, 1 / 4, 1000, 2 / 5⟩

/-- A chassis moving forward at 20 m/s. -/
noncomputable def example_chassis : btRigidBody ℝ := ⟨⟨0, 0, 20⟩, ⟨0, 0, 0⟩⟩

/-- A vehicle moving forward at 72 km/h (20 m/s). -/
noncomputable def example_vehicle : btRaycastVehicle ℝ :=
  ⟨some example_chassis, example_wheel, example_wheel, example_wheel, example_wheel, 72⟩

/-- A car moving forward at 20 m/s in third gear with the throttle at 1.0, not braking. -/
noncomputable def example_car_moving_forward : Car ℝ :=
  { m_vehicle := some example_vehicle
    m_vehicle_chassis := some example_chassis
    m_throttle := 1
    m_engine_rpm := 5000
    m_gear := 3
    m_gear_ratio := 131 / 100 * (4312 / 1000)
    m_last_shift_time := 0
    m_is_shifting := false
    m_engine_torque := 0
    m_steering_angle := 0
    m_break_force := 0
    m_break_until_opposite_torque := false
    m_movement_direction := CarMovementState.Forward
    m_aerodynamics_drag := 0
    m_aerodynamics_drg := 0 }

/-- A car at rest in neutral with the throttle at 0. -/
noncomputable def example_car_at_rest : Car ℝ :=
  { m_vehicle :=
      some { example_vehicle with
        m_chassisBody := some ⟨⟨0, 0, 0⟩, ⟨0, 0, 0⟩⟩
        m_currentVehicleSpeedKmHour := 0 }
    m_vehicle_chassis := some ⟨⟨0, 0, 0⟩, ⟨0, 0, 0⟩⟩
    m_throttle := 0
    m_engine_rpm := 900
    m_gear := 0
    m_gear_ratio := 0
    m_last_shift_time := 0
    m_is_shifting := false
    m_engine_torque := 0
    m_steering_angle := 0
    m_break_force := 0
    m_break_until_opposite_torque := false
    m_movement_direction := CarMovementState.Stationary
    m_aerodynamics_drag := 0
    m_aerodynamics_drg := 0 }

end Car

/-! ## Helper lemmas -/

namespace Math.Helper

variable {α : Type} [LinearOrderedField α]

theorem Clamp_ge {x a b : α} (hab : a ≤ b) : a ≤ Clamp x a b := by
  unfold Clamp
  split_ifs with h1 h2
  · exact le_refl a
  · exact hab
  · exact not_lt.mp h1

theorem Clamp_le {x a b : α} (hab : a ≤ b) : Clamp x a b ≤ b := by
  unfold Clamp
  split_ifs with h1 h2
  · exact hab
  · exact le_refl b
  · exact not_lt.mp h2

theorem atan2_div_PI_bounds (y x : ℝ) : -1 ≤ atan2 y x / PI ∧ atan2 y x / PI ≤ 1 := by
  have hpi : 0 < PI := Real.pi_pos
  have h1 : -PI < atan2 y x := Complex.neg_pi_lt_arg _
  have h2 : atan2 y x ≤ PI := Complex.arg_le_pi _
  constructor
  · rw [le_div_iff₀ hpi]; linarith
  · rw [div_le_iff₀ hpi]; linarith

theorem atan2_self_of_pos {e : ℝ} (h : 0 < e) : atan2 e e = Real.pi / 4 := by
  have hθ : Real.pi / 4 ∈ Set.Ioc (-Real.pi) Real.pi := by
    constructor <;> linarith [Real.pi_pos]
  have hr : 0 < e * √2 := by positivity
  have key := Complex.arg_mul_cos_add_sin_mul_I hr hθ
  have hsq := Real.mul_self_sqrt (show (0 : ℝ) ≤ 2 by norm_num)
  have e' : (⟨e, e⟩ : ℂ) =
      ↑(e * √2) * (Complex.cos ↑(Real.pi / 4) + Complex.sin ↑(Real.pi / 4) * Complex.I) := by
    rw [← Complex.ofReal_cos, ← Complex.ofReal_sin, Real.cos_pi_div_four, Real.sin_pi_div_four]
    apply Complex.ext
    · simp
      field_simp
      nlinarith
    · simp
      field_simp
      nlinarith
  unfold atan2
  rw [e']
  exact key

end Math.Helper

theorem btVector3.fuzzyZero_zero : (⟨0, 0, 0⟩ : btVector3 ℝ).fuzzyZero = true := by
  simp [btVector3.fuzzyZero, btVector3.length2, btVector3.dot, btVector3.SIMD_EPSILON]

/-! ## Claims on the slip computations -/

namespace tire_friction_model

open Math.Helper

/-- C1 (evaluation of the code): the slip ratio divides by zero at one forward speed.
For every `SMALL_FLOAT`, with the wheel pointing along `(0, 0, 1)`, the chassis moving at
`(0, 0, -SMALL_FLOAT)` and the wheel contact point at `(0, 0, -2 * SMALL_FLOAT)`, the
divisor `denominator + SMALL_FLOAT` and the dividend `nominator + SMALL_FLOAT` of
`compute_slip_ratio` are both 0, so that the checked slip ratio has no value there.  At
every input whose divisor is not 0 the checked slip ratio is the value of
`compute_slip_ratio`, the clamped quotient of dividend and divisor, and lies in the closed
interval from -1 to 1.  `compute_slip_angle` lies in that interval at every input.  The
zero chassis velocity is among the good inputs: with a positive `SMALL_FLOAT` the divisor
is then `SMALL_FLOAT` itself, which is not 0, and the slip angle is 1/4. -/
theorem slip_ratio_divides_by_zero_at_backward_small_float (SMALL_FLOAT : ℝ)
    (wheel_info : btWheelInfo ℝ)
    (wheel_forward wheel_side wheel_velocity vehicle_velocity : btVector3 ℝ) :
    (compute_slip_ratio_divisor SMALL_FLOAT ⟨0, 0, 1⟩ ⟨0, 0, -SMALL_FLOAT⟩ = 0 ∧
      compute_slip_ratio_dividend SMALL_FLOAT ⟨0, 0, 1⟩ ⟨0, 0, -2 * SMALL_FLOAT⟩
        ⟨0, 0, -SMALL_FLOAT⟩ = 0 ∧
      compute_slip_ratio_checked SMALL_FLOAT wheel_info ⟨0, 0, 1⟩ ⟨0, 0, -2 * SMALL_FLOAT⟩
        ⟨0, 0, -SMALL_FLOAT⟩ = none) ∧
    (compute_slip_ratio_checked SMALL_FLOAT wheel_info wheel_forward wheel_velocity
        vehicle_velocity = none ↔
      compute_slip_ratio_divisor SMALL_FLOAT wheel_forward vehicle_velocity = 0) ∧
    (compute_slip_ratio_divisor SMALL_FLOAT wheel_forward vehicle_velocity ≠ 0 →
      compute_slip_ratio_checked SMALL_FLOAT wheel_info wheel_forward wheel_velocity
          vehicle_velocity =
        some (compute_slip_ratio SMALL_FLOAT wheel_info wheel_forward wheel_velocity
          vehicle_velocity) ∧
      compute_slip_ratio SMALL_FLOAT wheel_info wheel_forward wheel_velocity vehicle_velocity =
        Clamp (compute_slip_ratio_dividend SMALL_FLOAT wheel_forward wheel_velocity
            vehicle_velocity /
          compute_slip_ratio_divisor SMALL_FLOAT wheel_forward vehicle_velocity) (-1) 1 ∧
      -1 ≤ compute_slip_ratio SMALL_FLOAT wheel_info wheel_forward wheel_velocity
        vehicle_velocity ∧
      compute_slip_ratio SMALL_FLOAT wheel_info wheel_forward wheel_velocity vehicle_velocity
        ≤ 1) ∧
    (-1 ≤ compute_slip_angle SMALL_FLOAT wheel_info wheel_forward wheel_side vehicle_velocity ∧
      compute_slip_angle SMALL_FLOAT wheel_info wheel_forward wheel_side vehicle_velocity ≤ 1) ∧
    (0 < SMALL_FLOAT →
      compute_slip_ratio_divisor SMALL_FLOAT wheel_forward btVector3.zero = SMALL_FLOAT ∧
      compute_slip_ratio_divisor SMALL_FLOAT wheel_forward btVector3.zero ≠ 0 ∧
      compute_slip_ratio_checked SMALL_FLOAT wheel_info wheel_forward wheel_velocity
          btVector3.zero =
        some (Clamp ((wheel_velocity.dot wheel_forward + SMALL_FLOAT) / SMALL_FLOAT) (-1) 1) ∧
      compute_slip_angle SMALL_FLOAT wheel_info wheel_forward wheel_side btVector3.zero =
        1 / 4) := by
  refine ⟨⟨?_, ?_, ?_⟩, ?_, ?_, ⟨?_, ?_⟩, ?_⟩
  · simp [compute_slip_ratio_divisor, btVector3.dot]
  · simp only [compute_slip_ratio_dividend, btVector3.dot]
    ring
  · simp [compute_slip_ratio_checked, btVector3.dot]
  · simp only [compute_slip_ratio_checked, compute_slip_ratio_divisor]
    split_ifs with h
    · simp [h]
    · simp [h]
  · intro hne
    refine ⟨?_, rfl, Clamp_ge (by norm_num), Clamp_le (by norm_num)⟩
    simp only [compute_slip_ratio_divisor] at hne
    simp only [compute_slip_ratio_checked, compute_slip_ratio]
    rw [if_neg hne]
  · exact (atan2_div_PI_bounds _ _).1
  · exact (atan2_div_PI_bounds _ _).2
  · intro hpos
    have hd : compute_slip_ratio_divisor SMALL_FLOAT wheel_forward btVector3.zero =
        SMALL_FLOAT := by
      simp [compute_slip_ratio_divisor, btVector3.dot, btVector3.zero]
    refine ⟨hd, ?_, ?_, ?_⟩
    · rw [hd]; exact ne_of_gt hpos
    · simp [compute_slip_ratio_checked, btVector3.dot, btVector3.zero, ne_of_gt hpos]
    · have hz : (btVector3.zero : btVector3 ℝ).fuzzyZero = true := btVector3.fuzzyZero_zero
      simp only [compute_slip_angle, hz, if_true, btVector3.dot, zero_mul, add_zero, zero_add]
      rw [atan2_self_of_pos hpos]
      unfold PI
      field_simp
      ring

/-- C2 (evaluation of the code): with a positive `SMALL_FLOAT`, zero chassis velocity
and zero wheel velocity, `compute_slip_ratio` returns 1, the full-slip value, and not 0,
for every wheel forward direction. -/
theorem slip_ratio_at_rest_is_one {α : Type} [LinearOrderedField α] (SMALL_FLOAT : α)
    (hpos : 0 < SMALL_FLOAT) (wheel_info : btWheelInfo α) (wheel_forward : btVector3 α) :
    compute_slip_ratio SMALL_FLOAT wheel_info wheel_forward btVector3.zero btVector3.zero = 1 ∧
    compute_slip_ratio SMALL_FLOAT wheel_info wheel_forward btVector3.zero btVector3.zero ≠ 0 := by
  have h : compute_slip_ratio SMALL_FLOAT wheel_info wheel_forward btVector3.zero btVector3.zero
      = 1 := by
    simp only [compute_slip_ratio, btVector3.dot, btVector3.zero, zero_mul, add_zero, sub_zero,
      zero_add]
    rw [div_self (ne_of_gt hpos)]
    simp [Clamp]
  rw [h]
  exact ⟨rfl, one_ne_zero⟩

/-- Witness for C2: `SMALL_FLOAT = 1/10000`, wheel pointing along `(0, 0, 1)`, car and
wheel at rest. -/
theorem slip_ratio_at_rest_is_one_witness :
    compute_slip_ratio (1 / 10000 : ℚ)
      ⟨⟨⟨0, 0, 0⟩, ⟨1, 0, 0⟩, 7 / 25, true⟩, ⟨⟨1, 0, 0⟩, ⟨0, 1, 0⟩, ⟨0, 0, 1⟩⟩, 1 / 4, 1000, 0⟩
      ⟨0, 0, 1⟩ btVector3.zero btVector3.zero = 1 :=
  (slip_ratio_at_rest_is_one (1 / 10000 : ℚ) (by norm_num) _ _).1

end tire_friction_model

/-! ## Lemmas on the Pacejka curve -/

namespace tire_friction_model

open Math.Helper

theorem arctan_le_self_of_nonneg {x : ℝ} (hx : 0 ≤ x) : Real.arctan x ≤ x := by
  rcases eq_or_lt_of_le hx with h | h
  · rw [← h, Real.arctan_zero]
  · have hpos : 0 < Real.arctan x := by
      have := Real.arctan_strictMono h
      rwa [Real.arctan_zero] at this
    have hlt := Real.lt_tan hpos (Real.arctan_lt_pi_div_two x)
    rw [Real.tan_arctan] at hlt
    exact le_of_lt hlt

theorem arctan_nonneg_of_nonneg {x : ℝ} (hx : 0 ≤ x) : 0 ≤ Real.arctan x := by
  have := Real.arctan_strictMono.monotone hx
  rwa [Real.arctan_zero] at this

theorem compute_pacejka_force_unfold (SMALL_FLOAT : ℝ) (Sign : ℝ → ℝ) (slip normal_load : ℝ) :
    compute_pacejka_force SMALL_FLOAT Sign slip normal_load =
      ((normal_load + SMALL_FLOAT) * (1 / 1000)) *
        Real.sin (15 / 10 * Real.arctan
          (300 * ((normal_load + SMALL_FLOAT) * (1 / 1000)) /
              (15 / 10 * ((normal_load + SMALL_FLOAT) * (1 / 1000))) * (slip * 100) -
            (-2) * (300 * ((normal_load + SMALL_FLOAT) * (1 / 1000)) /
              (15 / 10 * ((normal_load + SMALL_FLOAT) * (1 / 1000))) * (slip * 100) -
              Real.arctan (300 * ((normal_load + SMALL_FLOAT) * (1 / 1000)) /
              (15 / 10 * ((normal_load + SMALL_FLOAT) * (1 / 1000))) * (slip * 100))))) := by
  simp only [compute_pacejka_force, zero_mul, mul_zero, zero_add, add_zero, neg_zero, Real.exp_zero,
    mul_one, sub_zero]

theorem pacejka_stiffness_factor {Fz : ℝ} (h : Fz ≠ 0) : 300 * Fz / (15 / 10 * Fz) = 200 := by
  field_simp
  ring

/-- The curve argument `Bx - E * (Bx - atan Bx)` for `E = -2`. -/
theorem pacejka_inner_bounds {x : ℝ} (hx : 0 ≤ x) :
    x ≤ x - (-2) * (x - Real.arctan x) ∧ x - (-2) * (x - Real.arctan x) ≤ 3 * x := by
  have h1 := arctan_le_self_of_nonneg hx
  have h2 := arctan_nonneg_of_nonneg hx
  constructor <;> linarith

theorem compute_pacejka_force_of_load (SMALL_FLOAT : ℝ) (Sign : ℝ → ℝ) (slip normal_load : ℝ)
    (h : normal_load + SMALL_FLOAT ≠ 0) :
    compute_pacejka_force SMALL_FLOAT Sign slip normal_load =
      ((normal_load + SMALL_FLOAT) * (1 / 1000)) *
        Real.sin (15 / 10 * Real.arctan (200 * (slip * 100) -
          (-2) * (200 * (slip * 100) - Real.arctan (200 * (slip * 100))))) := by
  have hFz : (normal_load + SMALL_FLOAT) * (1 / 1000) ≠ 0 := by
    exact mul_ne_zero h (by norm_num)
  rw [compute_pacejka_force_unfold, pacejka_stiffness_factor hFz]

theorem compute_pacejka_force_pos (SMALL_FLOAT : ℝ) (Sign : ℝ → ℝ) (slip normal_load : ℝ)
    (hs : 0 < slip) (h : 0 < normal_load + SMALL_FLOAT) :
    0 < compute_pacejka_force SMALL_FLOAT Sign slip normal_load := by
  rw [compute_pacejka_force_of_load _ _ _ _ (ne_of_gt h)]
  have hx : 0 < 200 * (slip * 100) := by positivity
  have hin := (pacejka_inner_bounds (le_of_lt hx)).1
  set y := 200 * (slip * 100) - (-2) * (200 * (slip * 100) - Real.arctan (200 * (slip * 100)))
  clear_value y
  have hy : 0 < y := lt_of_lt_of_le hx hin
  have ha : 0 < Real.arctan y := by
    have := Real.arctan_strictMono hy
    rwa [Real.arctan_zero] at this
  have hb := Real.arctan_lt_pi_div_two y
  have hpi := Real.pi_pos
  apply mul_pos (by positivity)
  apply Real.sin_pos_of_pos_of_lt_pi
  · positivity
  · linarith

theorem pacejka_force_as_specified_le {s Fz : ℝ} (hs : 0 ≤ s) (hFz : 0 < Fz) :
    pacejka_force_as_specified s Fz ≤ 900 * Fz ^ 2 * s := by
  have hB : Fz ^ 2 * 300 / (15 / 10 * (Fz * 1)) = 200 * Fz := by
    field_simp
    ring
  simp only [pacejka_force_as_specified]
  rw [hB]
  have hx : 0 ≤ 200 * Fz * s := by positivity
  obtain ⟨h1, h2⟩ := pacejka_inner_bounds hx
  set y := 200 * Fz * s - (-2) * (200 * Fz * s - Real.arctan (200 * Fz * s))
  clear_value y
  have hy : 0 ≤ y := le_trans hx h1
  have ha := arctan_le_self_of_nonneg hy
  have ha0 := arctan_nonneg_of_nonneg hy
  have hsin : Real.sin (15 / 10 * Real.arctan y) ≤ 15 / 10 * Real.arctan y :=
    Real.sin_le (by positivity)
  have : Real.sin (15 / 10 * Real.arctan y) ≤ 15 / 10 * (3 * (200 * Fz * s)) := by linarith
  calc Fz * 1 * Real.sin (15 / 10 * Real.arctan y)
      ≤ Fz * 1 * (15 / 10 * (3 * (200 * Fz * s))) :=
        mul_le_mul_of_nonneg_left this (by positivity)
    _ = 900 * Fz ^ 2 * s := by ring

theorem compute_pacejka_force_ge {SMALL_FLOAT : ℝ} (Sign : ℝ → ℝ) {normal_load : ℝ}
    (h : 0 < normal_load + SMALL_FLOAT) :
    (normal_load + SMALL_FLOAT) * (1 / 1000) * (3 / 11) ≤
      compute_pacejka_force SMALL_FLOAT Sign (3 / 200000) normal_load := by
  rw [compute_pacejka_force_of_load _ _ _ _ (ne_of_gt h)]
  have e : (200 : ℝ) * (3 / 200000 * 100) = 3 / 10 := by norm_num
  rw [e]
  obtain ⟨h1, h2⟩ := pacejka_inner_bounds (show (0 : ℝ) ≤ 3 / 10 by norm_num)
  set y := (3 / 10 : ℝ) - (-2) * (3 / 10 - Real.arctan (3 / 10))
  clear_value y
  have hy : 0 ≤ y := le_trans (by norm_num) h1
  have ha := arctan_le_self_of_nonneg hy
  have ha0 := arctan_nonneg_of_nonneg hy
  have hmono : Real.arctan (3 / 10) ≤ Real.arctan y := Real.arctan_strictMono.monotone h1
  have hb0 := arctan_nonneg_of_nonneg (show (0 : ℝ) ≤ 3 / 10 by norm_num)
  have hpi := Real.pi_gt_three
  have s1 : Real.sin (Real.arctan (3 / 10)) ≤ Real.sin (Real.arctan y) :=
    Real.sin_le_sin_of_le_of_le_pi_div_two (by linarith) (by linarith) hmono
  have s2 : Real.sin (Real.arctan y) ≤ Real.sin (15 / 10 * Real.arctan y) :=
    Real.sin_le_sin_of_le_of_le_pi_div_two (by linarith) (by linarith) (by linarith)
  have s3 : (3 / 11 : ℝ) ≤ Real.sin (Real.arctan (3 / 10)) := by
    rw [Real.sin_arctan]
    have hsq : √(1 + (3 / 10 : ℝ) ^ 2) ≤ 11 / 10 := by
      rw [Real.sqrt_le_left (by norm_num)]
      norm_num
    have hpos : 0 < √(1 + (3 / 10 : ℝ) ^ 2) := Real.sqrt_pos.mpr (by norm_num)
    rw [le_div_iff₀ hpos]
    calc (3 / 11 : ℝ) * √(1 + (3 / 10 : ℝ) ^ 2) ≤ 3 / 11 * (11 / 10) :=
          mul_le_mul_of_nonneg_left hsq (by norm_num)
      _ = 3 / 10 := by norm_num
  have : (3 / 11 : ℝ) ≤ Real.sin (15 / 10 * Real.arctan y) := le_trans s3 (le_trans s1 s2)
  exact mul_le_mul_of_nonneg_left this (by positivity)

/-! ## Claims on the tire forces -/

/-- C3: `compute_pacejka_force` is odd in its slip argument, for every slip and every
normal load (and whatever `SMALL_FLOAT` and `Sign` are). -/
theorem compute_pacejka_force_odd (SMALL_FLOAT : ℝ) (Sign : ℝ → ℝ) (slip normal_load : ℝ) :
    compute_pacejka_force SMALL_FLOAT Sign (-slip) normal_load =
      -compute_pacejka_force SMALL_FLOAT Sign slip normal_load := by
  rw [compute_pacejka_force_unfold, compute_pacejka_force_unfold]
  set B := 300 * ((normal_load + SMALL_FLOAT) * (1 / 1000)) /
              (15 / 10 * ((normal_load + SMALL_FLOAT) * (1 / 1000))) with hB
  have h1 : B * (-slip * 100) = -(B * (slip * 100)) := by ring
  rw [h1, Real.arctan_neg]
  have h2 : -(B * (slip * 100)) - -2 * (-(B * (slip * 100)) - -Real.arctan (B * (slip * 100)))
      = -(B * (slip * 100) - -2 * (B * (slip * 100) - Real.arctan (B * (slip * 100)))) := by ring
  rw [h2, Real.arctan_neg, mul_neg, Real.sin_neg, mul_neg]

/-- C4 (as stated, refuted): at `SMALL_FLOAT = 1/10000`, slip `3/200000` and load
`100 - 1/10000` the code's force differs from the specified formula with
`BCD = Fz ^ 2 * b4`, whether `Fz` is read as `(load + SMALL_FLOAT) / 1000` or as
`load / 1000`. -/
theorem compute_pacejka_force_ne_specified :
    compute_pacejka_force (1 / 10000) (fun x => SignType.sign x) (3 / 200000) (100 - 1 / 10000) ≠
        pacejka_force_as_specified (100 * (3 / 200000)) ((100 - 1 / 10000 + 1 / 10000) * (1 / 1000)) ∧
    compute_pacejka_force (1 / 10000) (fun x => SignType.sign x) (3 / 200000) (100 - 1 / 10000) ≠
        pacejka_force_as_specified (100 * (3 / 200000)) ((100 - 1 / 10000) * (1 / 1000)) := by
  have hcode := compute_pacejka_force_ge (fun x : ℝ => ((SignType.sign x : SignType) : ℝ))
    (show (0 : ℝ) < (100 - 1 / 10000) + 1 / 10000 by norm_num)
  have hs1 := pacejka_force_as_specified_le (show (0 : ℝ) ≤ 100 * (3 / 200000) by norm_num)
    (show (0 : ℝ) < (100 - 1 / 10000 + 1 / 10000) * (1 / 1000) by norm_num)
  have hs2 := pacejka_force_as_specified_le (show (0 : ℝ) ≤ 100 * (3 / 200000) by norm_num)
    (show (0 : ℝ) < (100 - 1 / 10000) * (1 / 1000) by norm_num)
  constructor
  · intro h
    rw [h] at hcode
    norm_num at hcode hs1
    linarith
  · intro h
    rw [h] at hcode
    norm_num at hcode hs2
    linarith

/-- C4 (amended): for every slip and every positive normal load (with a positive
`SMALL_FLOAT`), with `Fz = (load + SMALL_FLOAT) / 1000`, `C = 1.5`, `D = Fz` and
`BCD = 300 * Fz` (linear in `Fz`), the factor `B = BCD / (C * D)` is 200 and
`compute_pacejka_force` equals `D * sin (C * atan (B * s - b8 * (B * s - atan (B * s))))`
at `s = 100 * slip` and `b8 = -2`. -/
theorem compute_pacejka_force_formula (SMALL_FLOAT : ℝ) (Sign : ℝ → ℝ) (slip normal_load : ℝ)
    (hε : 0 < SMALL_FLOAT) (hload : 0 < normal_load) :
    300 * ((normal_load + SMALL_FLOAT) * (1 / 1000)) /
        (15 / 10 * ((normal_load + SMALL_FLOAT) * (1 / 1000) * 1)) = 200 ∧
    compute_pacejka_force SMALL_FLOAT Sign slip normal_load =
      ((normal_load + SMALL_FLOAT) * (1 / 1000) * 1) *
        Real.sin (15 / 10 * Real.arctan (200 * (100 * slip) -
          (-2) * (200 * (100 * slip) - Real.arctan (200 * (100 * slip))))) := by
  have hne : normal_load + SMALL_FLOAT ≠ 0 := ne_of_gt (by linarith)
  have hFz : (normal_load + SMALL_FLOAT) * (1 / 1000) ≠ 0 := mul_ne_zero hne (by norm_num)
  constructor
  · rw [mul_one]
    exact pacejka_stiffness_factor hFz
  · rw [compute_pacejka_force_of_load _ _ _ _ hne, mul_one, mul_comm slip 100]

/-- Witness for C4 (amended) at `SMALL_FLOAT = 1/10000`, slip `1/2` and load `1000`. -/
theorem compute_pacejka_force_formula_witness :
    compute_pacejka_force (1 / 10000) (fun x => SignType.sign x) (1 / 2) 1000 =
      ((1000 + 1 / 10000) * (1 / 1000) * 1) *
        Real.sin (15 / 10 * Real.arctan (200 * (100 * (1 / 2)) -
          (-2) * (200 * (100 * (1 / 2)) - Real.arctan (200 * (100 * (1 / 2)))))) :=
  (compute_pacejka_force_formula (1 / 10000) (fun x => SignType.sign x) (1 / 2) 1000
    (by norm_num) (by norm_num)).2

/-- C5: the force returned by `compute_tire_force` has Y component 0, and X and Z
components those of `fz * forward + tire_friction * (fx * right)` with
`fz = compute_pacejka_force slip_ratio load` and `fx = compute_pacejka_force slip_angle load`;
`tire_friction` (the constant 2) multiplies the lateral term only.  The application point
is the contact point of the wheel. -/
theorem compute_tire_force_components (SMALL_FLOAT : ℝ) (Sign : ℝ → ℝ) (wheel_info : btWheelInfo ℝ)
    (wheel_velocity vehicle_velocity : btVector3 ℝ) :
    (compute_tire_force SMALL_FLOAT Sign wheel_info wheel_velocity vehicle_velocity).1.y = 0 ∧
    (compute_tire_force SMALL_FLOAT Sign wheel_info wheel_velocity vehicle_velocity).1.x =
      compute_pacejka_force SMALL_FLOAT Sign
          (compute_slip_ratio SMALL_FLOAT wheel_info
            (bullet_interface.compute_wheel_direction_forward wheel_info) wheel_velocity
            vehicle_velocity) wheel_info.m_wheelsSuspensionForce *
          (bullet_interface.compute_wheel_direction_forward wheel_info).x +
        tuning.tire_friction *
          (compute_pacejka_force SMALL_FLOAT Sign
            (compute_slip_angle SMALL_FLOAT wheel_info
              (bullet_interface.compute_wheel_direction_forward wheel_info)
              (bullet_interface.compute_wheel_direction_right wheel_info) vehicle_velocity)
            wheel_info.m_wheelsSuspensionForce *
          (bullet_interface.compute_wheel_direction_right wheel_info).x) ∧
    (compute_tire_force SMALL_FLOAT Sign wheel_info wheel_velocity vehicle_velocity).1.z =
      compute_pacejka_force SMALL_FLOAT Sign
          (compute_slip_ratio SMALL_FLOAT wheel_info
            (bullet_interface.compute_wheel_direction_forward wheel_info) wheel_velocity
            vehicle_velocity) wheel_info.m_wheelsSuspensionForce *
          (bullet_interface.compute_wheel_direction_forward wheel_info).z +
        tuning.tire_friction *
          (compute_pacejka_force SMALL_FLOAT Sign
            (compute_slip_angle SMALL_FLOAT wheel_info
              (bullet_interface.compute_wheel_direction_forward wheel_info)
              (bullet_interface.compute_wheel_direction_right wheel_info) vehicle_velocity)
            wheel_info.m_wheelsSuspensionForce *
          (bullet_interface.compute_wheel_direction_right wheel_info).z) ∧
    (tuning.tire_friction : ℝ) = 2 ∧
    (compute_tire_force SMALL_FLOAT Sign wheel_info wheel_velocity vehicle_velocity).2 =
      wheel_info.m_raycastInfo.m_contactPointWS := by
  refine ⟨?_, ?_, ?_, rfl, rfl⟩
  · simp [compute_tire_force, bullet_interface.adjust_tire_friction, btVector3.mulScalar]
  · simp only [compute_tire_force, bullet_interface.adjust_tire_friction, btVector3.mulScalar,
      btVector3.add, btVector3.scale]
    ring
  · simp only [compute_tire_force, bullet_interface.adjust_tire_friction, btVector3.mulScalar,
      btVector3.add, btVector3.scale]
    ring

/-- C6 (as stated, refuted): for a wheel that is not in contact (identity orientation,
no suspension force), chassis velocity `(0, 0, -1)` and wheel velocity `(0, 0, -2)`,
`compute_tire_force` returns a force that is not the zero vector. -/
theorem compute_tire_force_nonzero_without_contact :
    (compute_tire_force (1 / 10000) (fun x => SignType.sign x)
      ⟨⟨⟨0, 0, 0⟩, ⟨1, 0, 0⟩, 7 / 25, false⟩, ⟨⟨1, 0, 0⟩, ⟨0, 1, 0⟩, ⟨0, 0, 1⟩⟩, 1 / 4, 0, 0⟩
      ⟨0, 0, -2⟩ ⟨0, 0, -1⟩).1 ≠ btVector3.zero := by
  intro h
  have hz := congrArg btVector3.z h
  have hpos := compute_pacejka_force_pos (1 / 10000) (fun x : ℝ => ((SignType.sign x : SignType) : ℝ))
    1 0 (by norm_num) (by norm_num)
  have hclamp : Clamp (1 : ℝ) (-1) 1 = 1 := by norm_num [Clamp]
  simp [compute_tire_force, bullet_interface.adjust_tire_friction, btVector3.mulScalar,
    btVector3.add, btVector3.scale, bullet_interface.compute_wheel_direction_forward,
    bullet_interface.compute_wheel_direction_right, btVector3.cross, btVector3.normalized,
    btVector3.length, btVector3.length2, btVector3.dot, btMatrix3x3.getColumn0,
    compute_slip_ratio, btVector3.zero] at hz
  have hq : ((2 : ℝ) - 1 + 10000⁻¹) / (1 + 10000⁻¹) = 1 := by norm_num
  rw [hq, hclamp] at hz
  norm_num at hpos
  linarith

/-- C6 (amended): `compute_tire_force` does not look at the contact flag (its result is
the same with the flag set or cleared), and for a wheel that is not in contact the tire
friction loop of `Car::ApplyForces` skips the wheel: it computes and applies no tire force
for it. -/
theorem tire_force_skipped_without_contact (SMALL_FLOAT : ℝ) (Sign : ℝ → ℝ)
    (m_vehicle_chassis : btRigidBody ℝ) (wheel_info : btWheelInfo ℝ)
    (wheel_velocity vehicle_velocity : btVector3 ℝ)
    (hcontact : wheel_info.m_raycastInfo.m_isInContact = false) :
    Car.ApplyForces_tire_force_of_wheel SMALL_FLOAT Sign m_vehicle_chassis wheel_info = none ∧
    Car.ApplyForces_tire_friction SMALL_FLOAT Sign m_vehicle_chassis [wheel_info] = [] ∧
    compute_tire_force SMALL_FLOAT Sign wheel_info wheel_velocity vehicle_velocity =
      compute_tire_force SMALL_FLOAT Sign
        { wheel_info with m_raycastInfo := { wheel_info.m_raycastInfo with m_isInContact := true } }
        wheel_velocity vehicle_velocity := by
  have h1 : Car.ApplyForces_tire_force_of_wheel SMALL_FLOAT Sign m_vehicle_chassis wheel_info
      = none := by
    simp [Car.ApplyForces_tire_force_of_wheel, hcontact]
  refine ⟨h1, ?_, rfl⟩
  simp [Car.ApplyForces_tire_friction, h1]

/-- Witness for C6 (amended): the wheel without contact of the counterexample, on a chassis
moving at `(0, 0, -1)`. -/
theorem tire_force_skipped_without_contact_witness :
    Car.ApplyForces_tire_force_of_wheel (1 / 10000) (fun x => SignType.sign x)
      ⟨⟨0, 0, -1⟩, ⟨0, 0, 0⟩⟩
      ⟨⟨⟨0, 0, 0⟩, ⟨1, 0, 0⟩, 7 / 25, false⟩, ⟨⟨1, 0, 0⟩, ⟨0, 1, 0⟩, ⟨0, 0, 1⟩⟩, 1 / 4, 0, 0⟩
      = none :=
  (tire_force_skipped_without_contact (1 / 10000) (fun x => SignType.sign x)
    ⟨⟨0, 0, -1⟩, ⟨0, 0, 0⟩⟩
    ⟨⟨⟨0, 0, 0⟩, ⟨1, 0, 0⟩, 7 / 25, false⟩, ⟨⟨1, 0, 0⟩, ⟨0, 1, 0⟩, ⟨0, 0, 1⟩⟩, 1 / 4, 0, 0⟩
    ⟨0, 0, -2⟩ ⟨0, 0, -1⟩ rfl).1

end tire_friction_model

/-! ## Lemmas and claims on the gearbox -/

namespace gearbox

variable {α : Type} [LinearOrderedField α]

theorem to_size_t_lt_count {g : Int} (hlo : -1 ≤ g) (hhi : g < 2 ^ 31)
    (h : to_size_t g < gearbox_ratios_count) : 0 ≤ g ∧ g ≤ 4 := by
  unfold to_size_t gearbox_ratios_count at h
  norm_num at h hhi
  omega

theorem gear_selected_by_throttle_range {g : Int} (throttle_input : α) (hlo : -1 ≤ g)
    (hhi : g ≤ 5) :
    -1 ≤ gear_selected_by_throttle g throttle_input ∧
      gear_selected_by_throttle g throttle_input ≤ 5 := by
  unfold gear_selected_by_throttle
  split_ifs <;> omega

/-- The tick entered with `is_shifting` false, written with `gear_selected_by_throttle`. -/
theorem compute_gear_and_gear_ratio_not_shifting (out_of_bounds_read delta_time_seconds : α)
    (s : GearboxState α) (throttle_input : α) (h : s.is_shifting = false) :
    compute_gear_and_gear_ratio out_of_bounds_read delta_time_seconds s throttle_input =
      (if s.engine_rpm > tuning.gearbox_rpm_upshift ∧
          to_size_t (gear_selected_by_throttle s.current_gear throttle_input) < gearbox_ratios_count
      then
        { s with current_gear := gear_selected_by_throttle s.current_gear throttle_input + 1,
                 gear_ratio :=
                  (if gear_selected_by_throttle s.current_gear throttle_input = -1 then
                    tuning.gearbox_ratio_reverse * tuning.gearbox_final_drive
                  else (gearbox_ratios_at
                      (gear_selected_by_throttle s.current_gear throttle_input - 1)).getD
                        out_of_bounds_read * tuning.gearbox_final_drive),
                 last_shift_time := s.last_shift_time + delta_time_seconds, is_shifting := true }
      else if s.engine_rpm < tuning.gearbox_rpm_downshift ∧
          gear_selected_by_throttle s.current_gear throttle_input > 1 then
        { s with current_gear := gear_selected_by_throttle s.current_gear throttle_input - 1,
                 gear_ratio :=
                  (if gear_selected_by_throttle s.current_gear throttle_input = -1 then
                    tuning.gearbox_ratio_reverse * tuning.gearbox_final_drive
                  else (gearbox_ratios_at
                      (gear_selected_by_throttle s.current_gear throttle_input - 1)).getD
                        out_of_bounds_read * tuning.gearbox_final_drive),
                 last_shift_time := s.last_shift_time + delta_time_seconds, is_shifting := true }
      else
        { s with current_gear := gear_selected_by_throttle s.current_gear throttle_input,
                 gear_ratio :=
                  (if gear_selected_by_throttle s.current_gear throttle_input = -1 then
                    tuning.gearbox_ratio_reverse * tuning.gearbox_final_drive
                  else (gearbox_ratios_at
                      (gear_selected_by_throttle s.current_gear throttle_input - 1)).getD
                        out_of_bounds_read * tuning.gearbox_final_drive) }) := by
  simp only [compute_gear_and_gear_ratio, gear_selected_by_throttle, h]
  rfl

/-- The tick entered with `is_shifting` true. -/
theorem compute_gear_and_gear_ratio_shifting (out_of_bounds_read delta_time_seconds : α)
    (s : GearboxState α) (throttle_input : α) (h : s.is_shifting = true) :
    compute_gear_and_gear_ratio out_of_bounds_read delta_time_seconds s throttle_input =
      (if s.last_shift_time - delta_time_seconds ≤ 0 then
        { s with is_shifting := false, last_shift_time := 0 }
      else { s with last_shift_time := s.last_shift_time - delta_time_seconds }) := by
  simp only [compute_gear_and_gear_ratio, h]
  rfl

/-- The gear left by a tick. -/
theorem current_gear_after (out_of_bounds_read delta_time_seconds : α)
    (s : GearboxState α) (throttle_input : α) :
    (compute_gear_and_gear_ratio out_of_bounds_read delta_time_seconds s
        throttle_input).current_gear =
      if s.is_shifting = true then s.current_gear
      else if s.engine_rpm > tuning.gearbox_rpm_upshift ∧
          to_size_t (gear_selected_by_throttle s.current_gear throttle_input) < gearbox_ratios_count
        then gear_selected_by_throttle s.current_gear throttle_input + 1
      else if s.engine_rpm < tuning.gearbox_rpm_downshift ∧
          gear_selected_by_throttle s.current_gear throttle_input > 1
        then gear_selected_by_throttle s.current_gear throttle_input - 1
      else gear_selected_by_throttle s.current_gear throttle_input := by
  cases hs : s.is_shifting
  · rw [compute_gear_and_gear_ratio_not_shifting _ _ _ _ hs]
    simp only [Bool.false_eq_true, if_false]
    split_ifs <;> rfl
  · rw [compute_gear_and_gear_ratio_shifting _ _ _ _ hs]
    simp only [if_true]
    split_ifs <;> rfl

/-- The gear ratio left by a tick. -/
theorem gear_ratio_after (out_of_bounds_read delta_time_seconds : α)
    (s : GearboxState α) (throttle_input : α) :
    (compute_gear_and_gear_ratio out_of_bounds_read delta_time_seconds s
        throttle_input).gear_ratio =
      if s.is_shifting = true then s.gear_ratio
      else if gear_selected_by_throttle s.current_gear throttle_input = -1 then
        tuning.gearbox_ratio_reverse * tuning.gearbox_final_drive
      else (gearbox_ratios_at (gear_selected_by_throttle s.current_gear throttle_input - 1)).getD
        out_of_bounds_read * tuning.gearbox_final_drive := by
  cases hs : s.is_shifting
  · rw [compute_gear_and_gear_ratio_not_shifting _ _ _ _ hs]
    simp only [Bool.false_eq_true, if_false]
    split_ifs <;> rfl
  · rw [compute_gear_and_gear_ratio_shifting _ _ _ _ hs]
    simp only [if_true]
    split_ifs <;> rfl

/-- The shifting flag left by a tick. -/
theorem is_shifting_after (out_of_bounds_read delta_time_seconds : α)
    (s : GearboxState α) (throttle_input : α) :
    (compute_gear_and_gear_ratio out_of_bounds_read delta_time_seconds s
        throttle_input).is_shifting =
      if s.is_shifting = true then
        (if s.last_shift_time - delta_time_seconds ≤ 0 then false else true)
      else if s.engine_rpm > tuning.gearbox_rpm_upshift ∧
          to_size_t (gear_selected_by_throttle s.current_gear throttle_input) < gearbox_ratios_count
        then true
      else if s.engine_rpm < tuning.gearbox_rpm_downshift ∧
          gear_selected_by_throttle s.current_gear throttle_input > 1
        then true
      else false := by
  cases hs : s.is_shifting
  · rw [compute_gear_and_gear_ratio_not_shifting _ _ _ _ hs]
    simp only [Bool.false_eq_true, if_false]
    split_ifs <;> first | rfl | exact hs
  · rw [compute_gear_and_gear_ratio_shifting _ _ _ _ hs]
    simp only [if_true]
    split_ifs <;> first | rfl | exact hs

/-- The shift timer left by a tick. -/
theorem last_shift_time_after (out_of_bounds_read delta_time_seconds : α)
    (s : GearboxState α) (throttle_input : α) :
    (compute_gear_and_gear_ratio out_of_bounds_read delta_time_seconds s
        throttle_input).last_shift_time =
      if s.is_shifting = true then
        (if s.last_shift_time - delta_time_seconds ≤ 0 then 0
          else s.last_shift_time - delta_time_seconds)
      else if s.engine_rpm > tuning.gearbox_rpm_upshift ∧
          to_size_t (gear_selected_by_throttle s.current_gear throttle_input) < gearbox_ratios_count
        then s.last_shift_time + delta_time_seconds
      else if s.engine_rpm < tuning.gearbox_rpm_downshift ∧
          gear_selected_by_throttle s.current_gear throttle_input > 1
        then s.last_shift_time + delta_time_seconds
      else s.last_shift_time := by
  cases hs : s.is_shifting
  · rw [compute_gear_and_gear_ratio_not_shifting _ _ _ _ hs]
    simp only [Bool.false_eq_true, if_false]
    split_ifs <;> rfl
  · rw [compute_gear_and_gear_ratio_shifting _ _ _ _ hs]
    simp only [if_true]
    split_ifs <;> rfl

/-- The engine rpm is not written by the gearbox step. -/
theorem engine_rpm_after (out_of_bounds_read delta_time_seconds : α)
    (s : GearboxState α) (throttle_input : α) :
    (compute_gear_and_gear_ratio out_of_bounds_read delta_time_seconds s
        throttle_input).engine_rpm = s.engine_rpm := by
  cases hs : s.is_shifting
  · rw [compute_gear_and_gear_ratio_not_shifting _ _ _ _ hs]
    split_ifs <;> rfl
  · rw [compute_gear_and_gear_ratio_shifting _ _ _ _ hs]
    split_ifs <;> rfl

/-- C7: the gear range is kept by the gearbox step: from a gear between -1 and 5 the gear
after `compute_gear_and_gear_ratio` is again between -1 and 5, for every engine rpm,
throttle, shifting flag, shift timer and tick time. -/
theorem current_gear_range_invariant (out_of_bounds_read delta_time_seconds : α)
    (s : GearboxState α) (throttle_input : α)
    (hlo : -1 ≤ s.current_gear) (hhi : s.current_gear ≤ 5) :
    -1 ≤ (compute_gear_and_gear_ratio out_of_bounds_read delta_time_seconds s
        throttle_input).current_gear ∧
    (compute_gear_and_gear_ratio out_of_bounds_read delta_time_seconds s
        throttle_input).current_gear ≤ 5 := by
  rw [current_gear_after]
  obtain ⟨h1, h2⟩ := gear_selected_by_throttle_range throttle_input hlo hhi
  split_ifs with hs hup hdown
  · exact ⟨hlo, hhi⟩
  · obtain ⟨h3, h4⟩ := to_size_t_lt_count h1 (by norm_num; omega) hup.2
    omega
  · have := hdown.2
    omega
  · exact ⟨h1, h2⟩

/-- Witness for C7: fourth gear above the upshift threshold moves to fifth gear. -/
theorem current_gear_range_invariant_witness :
    -1 ≤ (compute_gear_and_gear_ratio (0 : ℚ) (1 / 200) ⟨7000, 4, 0, 0, false⟩ 1).current_gear ∧
    (compute_gear_and_gear_ratio (0 : ℚ) (1 / 200) ⟨7000, 4, 0, 0, false⟩ 1).current_gear ≤ 5 :=
  current_gear_range_invariant (0 : ℚ) (1 / 200) ⟨7000, 4, 0, 0, false⟩ 1 (by decide) (by decide)

/-- C8: a tick entered with `is_shifting` true leaves `current_gear` and `gear_ratio`
(and `engine_rpm`) unchanged for every throttle and rpm and only counts the shift timer
down by the tick time: when the result is at most 0 the flag is cleared and the timer is
exactly 0 after this tick, otherwise the flag stays set, the timer is the old one minus
the tick time, strictly smaller for a positive tick time. -/
theorem shifting_tick_only_counts_down (out_of_bounds_read delta_time_seconds : α)
    (s : GearboxState α) (throttle_input : α) (hs : s.is_shifting = true) :
    (compute_gear_and_gear_ratio out_of_bounds_read delta_time_seconds s
        throttle_input).current_gear = s.current_gear ∧
    (compute_gear_and_gear_ratio out_of_bounds_read delta_time_seconds s
        throttle_input).gear_ratio = s.gear_ratio ∧
    (compute_gear_and_gear_ratio out_of_bounds_read delta_time_seconds s
        throttle_input).engine_rpm = s.engine_rpm ∧
    (s.last_shift_time - delta_time_seconds ≤ 0 →
      (compute_gear_and_gear_ratio out_of_bounds_read delta_time_seconds s
          throttle_input).is_shifting = false ∧
      (compute_gear_and_gear_ratio out_of_bounds_read delta_time_seconds s
          throttle_input).last_shift_time = 0) ∧
    (0 < s.last_shift_time - delta_time_seconds →
      (compute_gear_and_gear_ratio out_of_bounds_read delta_time_seconds s
          throttle_input).is_shifting = true ∧
      (compute_gear_and_gear_ratio out_of_bounds_read delta_time_seconds s
          throttle_input).last_shift_time = s.last_shift_time - delta_time_seconds ∧
      (0 < delta_time_seconds →
        (compute_gear_and_gear_ratio out_of_bounds_read delta_time_seconds s
          throttle_input).last_shift_time < s.last_shift_time)) := by
  rw [current_gear_after, gear_ratio_after, engine_rpm_after, is_shifting_after,
    last_shift_time_after]
  simp only [hs, if_true]
  refine ⟨trivial, trivial, trivial, ?_, ?_⟩
  · intro h
    simp [h]
  · intro h
    have h' : ¬ (s.last_shift_time - delta_time_seconds ≤ 0) := not_le.mpr h
    simp only [h', if_false]
    refine ⟨trivial, trivial, ?_⟩
    intro hdt
    linarith

/-- Witness for C8: second gear, shifting with 0.3 s left, a tick of 0.005 s and full
throttle above the upshift threshold. -/
theorem shifting_tick_only_counts_down_witness :
    (compute_gear_and_gear_ratio (0 : ℚ) (1 / 200) ⟨7000, 2, 5, 3 / 10, true⟩ 1).current_gear = 2 ∧
    (compute_gear_and_gear_ratio (0 : ℚ) (1 / 200) ⟨7000, 2, 5, 3 / 10, true⟩ 1).gear_ratio = 5 :=
  ⟨(shifting_tick_only_counts_down (0 : ℚ) (1 / 200) ⟨7000, 2, 5, 3 / 10, true⟩ 1 rfl).1,
    (shifting_tick_only_counts_down (0 : ℚ) (1 / 200) ⟨7000, 2, 5, 3 / 10, true⟩ 1 rfl).2.1⟩

/-- C9 (evaluation of the code): a tick entered with `is_shifting` false and shift timer 0
that triggers a shift leaves the shift timer equal to the tick time, not to
`tuning::gearbox_shift_delay`, which the gearbox never reads. -/
theorem shift_timer_after_shift_is_tick_time (out_of_bounds_read delta_time_seconds : α)
    (s : GearboxState α) (throttle_input : α) (hs : s.is_shifting = false)
    (ht : s.last_shift_time = 0)
    (htrig : (compute_gear_and_gear_ratio out_of_bounds_read delta_time_seconds s
        throttle_input).is_shifting = true) :
    (compute_gear_and_gear_ratio out_of_bounds_read delta_time_seconds s
        throttle_input).last_shift_time = delta_time_seconds := by
  rw [is_shifting_after] at htrig
  rw [last_shift_time_after]
  simp only [hs, Bool.false_eq_true, if_false] at htrig ⊢
  split_ifs at htrig ⊢ with h1 h2
  · rw [ht, zero_add]
  · rw [ht, zero_add]

/-- Witness for C9: first gear at 7000 rpm under full throttle with a tick of 0.005 s
shifts up; the timer is then 0.005 s, which is not the shift delay of 0.3 s, the next
tick already clears `is_shifting` and the tick after it shifts up again. -/
theorem shift_timer_after_shift_is_tick_time_witness :
    (compute_gear_and_gear_ratio (0 : ℚ) (1 / 200) ⟨7000, 1, 0, 0, false⟩ 1).current_gear = 2 ∧
    (compute_gear_and_gear_ratio (0 : ℚ) (1 / 200) ⟨7000, 1, 0, 0, false⟩ 1).is_shifting = true ∧
    (compute_gear_and_gear_ratio (0 : ℚ) (1 / 200) ⟨7000, 1, 0, 0, false⟩ 1).last_shift_time
      = 1 / 200 ∧
    (compute_gear_and_gear_ratio (0 : ℚ) (1 / 200) ⟨7000, 1, 0, 0, false⟩ 1).last_shift_time
      ≠ tuning.gearbox_shift_delay ∧
    (compute_gear_and_gear_ratio (0 : ℚ) (1 / 200)
      (compute_gear_and_gear_ratio (0 : ℚ) (1 / 200) ⟨7000, 1, 0, 0, false⟩ 1) 1).is_shifting
      = false ∧
    (compute_gear_and_gear_ratio (0 : ℚ) (1 / 200) (compute_gear_and_gear_ratio (0 : ℚ) (1 / 200)
      (compute_gear_and_gear_ratio (0 : ℚ) (1 / 200) ⟨7000, 1, 0, 0, false⟩ 1) 1) 1).current_gear
      = 3 := by
  have hshift :
      (compute_gear_and_gear_ratio (0 : ℚ) (1 / 200) ⟨7000, 1, 0, 0, false⟩ 1).is_shifting
        = true := by
    norm_num [compute_gear_and_gear_ratio, tuning.gearbox_rpm_upshift, tuning.engine_max_rpm,
      to_size_t, gearbox_ratios_count]
  have htimer := shift_timer_after_shift_is_tick_time (0 : ℚ) (1 / 200) ⟨7000, 1, 0, 0, false⟩ 1
    rfl rfl hshift
  refine ⟨?_, hshift, htimer, ?_, ?_, ?_⟩
  · norm_num [compute_gear_and_gear_ratio, tuning.gearbox_rpm_upshift, tuning.engine_max_rpm,
      to_size_t, gearbox_ratios_count]
  · rw [htimer]
    norm_num [tuning.gearbox_shift_delay]
  · norm_num [compute_gear_and_gear_ratio, tuning.gearbox_rpm_upshift, tuning.engine_max_rpm,
      to_size_t, gearbox_ratios_count]
  · norm_num [compute_gear_and_gear_ratio, tuning.gearbox_rpm_upshift, tuning.engine_max_rpm,
      tuning.gearbox_rpm_downshift, to_size_t, gearbox_ratios_count]

/-- C10 (as stated, refuted): first gear at 7000 rpm under full throttle shifts up to
second gear, and the gear ratio left by that tick is the one of first gear,
`3.166 * 4.312`, not `gearbox_ratios[2 - 1] * gearbox_final_drive = 1.904 * 4.312`. -/
theorem gear_ratio_stale_after_shift :
    (compute_gear_and_gear_ratio (0 : ℚ) (1 / 200) ⟨7000, 1, 0, 0, false⟩ 1).current_gear = 2 ∧
    gearbox_ratios_at (2 - 1) = some (1904 / 1000 : ℚ) ∧
    (compute_gear_and_gear_ratio (0 : ℚ) (1 / 200) ⟨7000, 1, 0, 0, false⟩ 1).gear_ratio =
      3166 / 1000 * tuning.gearbox_final_drive ∧
    (compute_gear_and_gear_ratio (0 : ℚ) (1 / 200) ⟨7000, 1, 0, 0, false⟩ 1).gear_ratio ≠
      1904 / 1000 * tuning.gearbox_final_drive := by
  refine ⟨?_, ?_, ?_, ?_⟩
  · norm_num [compute_gear_and_gear_ratio, tuning.gearbox_rpm_upshift, tuning.engine_max_rpm,
      to_size_t, gearbox_ratios_count]
  · simp [gearbox_ratios_at, tuning.gearbox_ratios]
  · norm_num [compute_gear_and_gear_ratio, tuning.gearbox_rpm_upshift, tuning.engine_max_rpm,
      to_size_t, gearbox_ratios_count, gearbox_ratios_at, tuning.gearbox_ratios,
      tuning.gearbox_final_drive]
  · norm_num [compute_gear_and_gear_ratio, tuning.gearbox_rpm_upshift, tuning.engine_max_rpm,
      to_size_t, gearbox_ratios_count, gearbox_ratios_at, tuning.gearbox_ratios,
      tuning.gearbox_final_drive]

/-- C10 (amended): a tick entered with `is_shifting` true leaves `gear_ratio` unchanged; a
tick entered with `is_shifting` false sets it from the gear selected by the throttle,
before the rpm thresholds change the gear: to `gearbox_ratio_reverse * gearbox_final_drive`
when that gear is -1 and to `gearbox_ratios[gear - 1] * gearbox_final_drive` when that read
is inside the array; this selected gear is the resulting `current_gear` whenever the tick
triggers no shift. -/
theorem gear_ratio_from_selected_gear (out_of_bounds_read delta_time_seconds : α)
    (s : GearboxState α) (throttle_input : α) :
    (s.is_shifting = true →
      (compute_gear_and_gear_ratio out_of_bounds_read delta_time_seconds s
        throttle_input).gear_ratio = s.gear_ratio) ∧
    (s.is_shifting = false → gear_selected_by_throttle s.current_gear throttle_input = -1 →
      (compute_gear_and_gear_ratio out_of_bounds_read delta_time_seconds s
        throttle_input).gear_ratio = tuning.gearbox_ratio_reverse * tuning.gearbox_final_drive) ∧
    (s.is_shifting = false → gear_selected_by_throttle s.current_gear throttle_input ≠ -1 →
      ∀ r, gearbox_ratios_at (gear_selected_by_throttle s.current_gear throttle_input - 1)
          = some r →
        (compute_gear_and_gear_ratio out_of_bounds_read delta_time_seconds s
          throttle_input).gear_ratio = r * tuning.gearbox_final_drive) ∧
    (s.is_shifting = false →
      (compute_gear_and_gear_ratio out_of_bounds_read delta_time_seconds s
        throttle_input).is_shifting = false →
      (compute_gear_and_gear_ratio out_of_bounds_read delta_time_seconds s
        throttle_input).current_gear = gear_selected_by_throttle s.current_gear throttle_input) := by
  rw [gear_ratio_after, current_gear_after, is_shifting_after]
  refine ⟨?_, ?_, ?_, ?_⟩
  · intro hs
    simp [hs]
  · intro hs hsel
    simp [hs, hsel]
  · intro hs hsel r hr
    simp [hs, hsel, hr]
  · intro hs
    simp only [hs, Bool.false_eq_true, if_false]
    split_ifs <;> simp

end gearbox

/-! ## Claims on gear selection -/

namespace gearbox

variable {α : Type} [LinearOrderedField α]

theorem to_size_t_neg_one_not_lt_count : ¬ to_size_t (-1) < gearbox_ratios_count := by
  unfold to_size_t gearbox_ratios_count
  norm_num

theorem to_size_t_of_forward_gear {g : Int} (hlo : 1 ≤ g) (hhi : g ≤ 5) : to_size_t g = g := by
  unfold to_size_t
  have h : (0 : Int) ≤ g := by omega
  have h2 : g < 2 ^ 64 := by norm_num; omega
  exact Int.emod_eq_of_lt h h2

/-- C11: with `is_shifting` false and a negative throttle, the gearbox step leaves
`current_gear = -1`, `gear_ratio = gearbox_ratio_reverse * gearbox_final_drive`
(3.25 * 4.312) and `is_shifting` false, for every engine rpm: the upshift test compares
the gear as an unsigned number, so reverse never shifts up. -/
theorem negative_throttle_selects_reverse (out_of_bounds_read delta_time_seconds : α)
    (s : GearboxState α) (throttle_input : α) (hs : s.is_shifting = false)
    (hthr : throttle_input < 0) :
    (compute_gear_and_gear_ratio out_of_bounds_read delta_time_seconds s
        throttle_input).current_gear = -1 ∧
    (compute_gear_and_gear_ratio out_of_bounds_read delta_time_seconds s
        throttle_input).gear_ratio = tuning.gearbox_ratio_reverse * tuning.gearbox_final_drive ∧
    (tuning.gearbox_ratio_reverse * tuning.gearbox_final_drive : α) = 325 / 100 * (4312 / 1000) ∧
    (compute_gear_and_gear_ratio out_of_bounds_read delta_time_seconds s
        throttle_input).is_shifting = false := by
  have hsel : gear_selected_by_throttle s.current_gear throttle_input = -1 := by
    simp [gear_selected_by_throttle, hthr]
  rw [current_gear_after, gear_ratio_after, is_shifting_after]
  simp only [hs, hsel, Bool.false_eq_true, if_false, if_true]
  have h1 := to_size_t_neg_one_not_lt_count
  refine ⟨?_, trivial, ?_, ?_⟩
  · rw [if_neg (fun h => h1 h.2), if_neg (fun h => absurd h.2 (by decide))]
  · simp [tuning.gearbox_ratio_reverse, tuning.gearbox_final_drive]
  · rw [if_neg (fun h => h1 h.2), if_neg (fun h => absurd h.2 (by decide))]

/-- Witness for C11: third gear at 7000 rpm, above the upshift threshold, with throttle -1. -/
theorem negative_throttle_selects_reverse_witness :
    (compute_gear_and_gear_ratio (0 : ℚ) (1 / 200) ⟨7000, 3, 0, 0, false⟩ (-1)).current_gear = -1 ∧
    (compute_gear_and_gear_ratio (0 : ℚ) (1 / 200) ⟨7000, 3, 0, 0, false⟩ (-1)).is_shifting
      = false :=
  ⟨(negative_throttle_selects_reverse (0 : ℚ) (1 / 200) ⟨7000, 3, 0, 0, false⟩ (-1) rfl
      (by norm_num)).1,
    (negative_throttle_selects_reverse (0 : ℚ) (1 / 200) ⟨7000, 3, 0, 0, false⟩ (-1) rfl
      (by norm_num)).2.2.2⟩

/-- C12: the automatic shift rule.  With `is_shifting` false, a throttle that is not
negative and a forward gear `g` from 1 to 5: above 0.9 of `engine_max_rpm` and below fifth
gear the step leaves gear `g + 1` with `is_shifting` set; otherwise, below 0.2 of
`engine_max_rpm` and above first gear, it leaves gear `g - 1` with `is_shifting` set;
otherwise it leaves gear `g` and `is_shifting` false. -/
theorem automatic_shift_rule (out_of_bounds_read delta_time_seconds : α)
    (s : GearboxState α) (throttle_input : α) (hs : s.is_shifting = false)
    (hthr : 0 ≤ throttle_input) (hlo : 1 ≤ s.current_gear) (hhi : s.current_gear ≤ 5) :
    (tuning.gearbox_rpm_upshift : α) = 9 / 10 * tuning.engine_max_rpm ∧
    (tuning.gearbox_rpm_downshift : α) = 2 / 10 * tuning.engine_max_rpm ∧
    (s.engine_rpm > 9 / 10 * tuning.engine_max_rpm ∧ s.current_gear < 5 →
      (compute_gear_and_gear_ratio out_of_bounds_read delta_time_seconds s
          throttle_input).current_gear = s.current_gear + 1 ∧
      (compute_gear_and_gear_ratio out_of_bounds_read delta_time_seconds s
          throttle_input).is_shifting = true) ∧
    (¬ (s.engine_rpm > 9 / 10 * tuning.engine_max_rpm ∧ s.current_gear < 5) →
      s.engine_rpm < 2 / 10 * tuning.engine_max_rpm ∧ s.current_gear > 1 →
      (compute_gear_and_gear_ratio out_of_bounds_read delta_time_seconds s
          throttle_input).current_gear = s.current_gear - 1 ∧
      (compute_gear_and_gear_ratio out_of_bounds_read delta_time_seconds s
          throttle_input).is_shifting = true) ∧
    (¬ (s.engine_rpm > 9 / 10 * tuning.engine_max_rpm ∧ s.current_gear < 5) →
      ¬ (s.engine_rpm < 2 / 10 * tuning.engine_max_rpm ∧ s.current_gear > 1) →
      (compute_gear_and_gear_ratio out_of_bounds_read delta_time_seconds s
          throttle_input).current_gear = s.current_gear ∧
      (compute_gear_and_gear_ratio out_of_bounds_read delta_time_seconds s
          throttle_input).is_shifting = false) := by
  have hup : (tuning.gearbox_rpm_upshift : α) = 9 / 10 * tuning.engine_max_rpm := by
    unfold tuning.gearbox_rpm_upshift; ring
  have hdown : (tuning.gearbox_rpm_downshift : α) = 2 / 10 * tuning.engine_max_rpm := by
    unfold tuning.gearbox_rpm_downshift; ring
  have hsel : gear_selected_by_throttle s.current_gear throttle_input = s.current_gear := by
    unfold gear_selected_by_throttle
    rw [if_neg (not_lt.mpr hthr)]
    split_ifs with h1 h2
    · omega
    · rfl
    · rfl
  rw [current_gear_after, is_shifting_after]
  simp only [hs, hsel, Bool.false_eq_true, if_false, to_size_t_of_forward_gear hlo hhi,
    gearbox_ratios_count, hup, hdown]
  refine ⟨trivial, trivial, ?_, ?_, ?_⟩
  · intro h
    rw [if_pos h, if_pos h]
    exact ⟨rfl, rfl⟩
  · intro h1 h2
    rw [if_neg h1, if_pos h2, if_neg h1, if_pos h2]
    exact ⟨rfl, rfl⟩
  · intro h1 h2
    rw [if_neg h1, if_neg h2, if_neg h1, if_neg h2]
    exact ⟨rfl, rfl⟩

/-- Witness for C12: second gear at 7000 rpm under full throttle moves to third gear. -/
theorem automatic_shift_rule_witness :
    (compute_gear_and_gear_ratio (0 : ℚ) (1 / 200) ⟨7000, 2, 0, 0, false⟩ 1).current_gear = 2 + 1 ∧
    (compute_gear_and_gear_ratio (0 : ℚ) (1 / 200) ⟨7000, 2, 0, 0, false⟩ 1).is_shifting = true :=
  (automatic_shift_rule (0 : ℚ) (1 / 200) ⟨7000, 2, 0, 0, false⟩ 1 rfl (by norm_num)
    (by decide) (by decide)).2.2.1 ⟨by norm_num [tuning.engine_max_rpm], by decide⟩

end gearbox

/-! ## Claims on the torque curve -/

namespace gearbox

open Math.Helper

variable {α : Type} [LinearOrderedField α]

/-- The torque curve between the first and the last sample, segment by segment. -/
theorem torque_curve_of_mem_range (engine_rpm : α) (h1 : 1000 ≤ engine_rpm)
    (h2 : engine_rpm ≤ 7000) :
    torque_curve engine_rpm =
      if engine_rpm ≤ 2000 then 2 / 10 + (engine_rpm - 1000) / (2000 - 1000) * (4 / 10 - 2 / 10)
      else if engine_rpm ≤ 3000 then
        4 / 10 + (engine_rpm - 2000) / (3000 - 2000) * (65 / 100 - 4 / 10)
      else if engine_rpm ≤ 4000 then
        65 / 100 + (engine_rpm - 3000) / (4000 - 3000) * (9 / 10 - 65 / 100)
      else if engine_rpm ≤ 5000 then
        9 / 10 + (engine_rpm - 4000) / (5000 - 4000) * (1 - 9 / 10)
      else if engine_rpm ≤ 6000 then
        1 + (engine_rpm - 5000) / (6000 - 5000) * (9 / 10 - 1)
      else 9 / 10 + (engine_rpm - 6000) / (7000 - 6000) * (75 / 100 - 9 / 10) := by
  simp only [torque_curve, tuning.engine_torque_map, List.headD_cons, List.getLastD_cons,
    List.getLastD_nil, torque_curve_loop, not_lt.mpr h1, not_lt.mpr h2, if_false, gt_iff_lt,
    ge_iff_le, h1, true_and]
  rcases le_or_lt engine_rpm 2000 with c1 | c1
  · simp only [c1, if_true, Option.getD_some]
  have d1 := le_of_lt c1
  rcases le_or_lt engine_rpm 3000 with c2 | c2
  · simp only [not_le.mpr c1, d1, c2, if_true, if_false, and_self, Option.getD_some]
  have d2 := le_of_lt c2
  rcases le_or_lt engine_rpm 4000 with c3 | c3
  · simp only [not_le.mpr c1, not_le.mpr c2, d2, c3, if_true, if_false, and_self, and_false, Option.getD_some]
  have d3 := le_of_lt c3
  rcases le_or_lt engine_rpm 5000 with c4 | c4
  · simp only [not_le.mpr c1, not_le.mpr c2, not_le.mpr c3, d3, c4, if_true, if_false, and_self,
      and_false, Option.getD_some]
  have d4 := le_of_lt c4
  rcases le_or_lt engine_rpm 6000 with c5 | c5
  · simp only [not_le.mpr c1, not_le.mpr c2, not_le.mpr c3, not_le.mpr c4, d4, c5, if_true,
      if_false, and_self, and_false, Option.getD_some]
  have d5 := le_of_lt c5
  simp only [not_le.mpr c1, not_le.mpr c2, not_le.mpr c3, not_le.mpr c4, not_le.mpr c5, d5, h2,
    if_true, if_false, and_self, and_false, Option.getD_some]

/-- Above the last sample the torque curve returns the last sample value. -/
theorem torque_curve_above_last (engine_rpm : α) (h : 7000 < engine_rpm) :
    torque_curve engine_rpm = 75 / 100 := by
  have h0 : ¬ engine_rpm < 1000 := not_lt.mpr (by linarith)
  have h7 : engine_rpm > 7000 := h
  unfold torque_curve
  simp only [tuning.engine_torque_map, List.headD_cons, List.getLastD_cons, List.getLastD_nil]
  rw [if_neg h0, if_pos h7]

/-- At every sample of the map the torque curve returns the sample value. -/
theorem torque_curve_at_sample (p : α × α)
    (hp : p ∈ (tuning.engine_torque_map : List (α × α))) : torque_curve p.1 = p.2 := by
  simp only [tuning.engine_torque_map, List.mem_cons, List.mem_singleton, List.not_mem_nil,
    or_false] at hp
  rcases hp with h | h | h | h | h | h | h <;> subst h <;>
    rw [torque_curve_of_mem_range _ (by norm_num) (by norm_num)] <;> norm_num

/-- On the segment between two adjacent samples the torque curve is the line through them. -/
theorem torque_curve_on_segment (engine_rpm : α) (i : Nat) (p q : α × α)
    (hp : (tuning.engine_torque_map : List (α × α))[i]? = some p)
    (hq : (tuning.engine_torque_map : List (α × α))[i + 1]? = some q)
    (h1 : p.1 ≤ engine_rpm) (h2 : engine_rpm ≤ q.1) :
    torque_curve engine_rpm = p.2 + (engine_rpm - p.1) / (q.1 - p.1) * (q.2 - p.2) := by
  rcases i with _ | _ | _ | _ | _ | _ | i
  all_goals
    simp only [tuning.engine_torque_map, List.getElem?_cons_zero, List.getElem?_cons_succ,
      List.getElem?_nil, Option.some.injEq, zero_add, reduceCtorEq] at hp hq
  all_goals
    subst hp
    subst hq
    simp only at h1 h2
    rw [torque_curve_of_mem_range engine_rpm (by linarith) (by linarith)]
    split_ifs <;> first | rfl | linarith

/-- C14: `torque_curve` is the piecewise-linear interpolation of the torque map: for
adjacent map points `(x_i, y_i)`, `(x_(i+1), y_(i+1))` and every rpm between `x_i` and
`x_(i+1)` it returns `y_i + (rpm - x_i) / (x_(i+1) - x_i) * (y_(i+1) - y_i)`; at each of
the 7 samples it returns the sample value; above the last sample (7000) it returns the last
value 0.75. -/
theorem torque_curve_piecewise_linear (engine_rpm : α) :
    (∀ (i : Nat) (p q : α × α),
      (tuning.engine_torque_map : List (α × α))[i]? = some p →
      (tuning.engine_torque_map : List (α × α))[i + 1]? = some q →
      p.1 ≤ engine_rpm → engine_rpm ≤ q.1 →
      torque_curve engine_rpm = p.2 + (engine_rpm - p.1) / (q.1 - p.1) * (q.2 - p.2)) ∧
    (tuning.engine_torque_map : List (α × α)).length = 7 ∧
    (∀ p ∈ (tuning.engine_torque_map : List (α × α)), torque_curve p.1 = p.2) ∧
    (7000 < engine_rpm → torque_curve engine_rpm = 75 / 100) :=
  ⟨fun i p q hp hq h1 h2 => torque_curve_on_segment engine_rpm i p q hp hq h1 h2, rfl,
    fun p hp => torque_curve_at_sample p hp, torque_curve_above_last engine_rpm⟩

end gearbox

/-! ## Claim on the engine rpm -/

namespace gearbox

open Math.Helper

/-- C13: for every wheel delta rotation, positive tick time, gearbox state and throttle,
the `engine_rpm` left by `compute_torque` is
`Clamp (engine_idle_rpm + (deltaRotation / dt * 60) / (2 * PI) * gear_ratio * 2)
engine_idle_rpm engine_max_rpm`, with `gear_ratio` the ratio the same call leaves (the one
of `compute_gear_and_gear_ratio`), the divisor `dt` is not 0, and the result lies between
900 and 7600. -/
theorem engine_rpm_after_compute_torque (out_of_bounds_read delta_time_seconds : ℝ)
    (s : GearboxState ℝ) (throttle_input : ℝ) (wheel_info : btWheelInfo ℝ)
    (hdt : 0 < delta_time_seconds) :
    delta_time_seconds ≠ 0 ∧
    (compute_torque out_of_bounds_read delta_time_seconds s throttle_input wheel_info).2.gear_ratio
      = (compute_gear_and_gear_ratio out_of_bounds_read delta_time_seconds s
          throttle_input).gear_ratio ∧
    (compute_torque out_of_bounds_read delta_time_seconds s throttle_input wheel_info).2.engine_rpm
      = Clamp (tuning.engine_idle_rpm +
          (wheel_info.m_deltaRotation / delta_time_seconds * 60) / (2 * PI) *
            (compute_torque out_of_bounds_read delta_time_seconds s throttle_input
              wheel_info).2.gear_ratio * 2)
          tuning.engine_idle_rpm tuning.engine_max_rpm ∧
    900 ≤ (compute_torque out_of_bounds_read delta_time_seconds s throttle_input
        wheel_info).2.engine_rpm ∧
    (compute_torque out_of_bounds_read delta_time_seconds s throttle_input
        wheel_info).2.engine_rpm ≤ 7600 := by
  have hle : (tuning.engine_idle_rpm : ℝ) ≤ tuning.engine_max_rpm := by
    norm_num [tuning.engine_idle_rpm, tuning.engine_max_rpm]
  refine ⟨ne_of_gt hdt, rfl, rfl, ?_, ?_⟩
  · have h := Clamp_ge (x := tuning.engine_idle_rpm +
          (wheel_info.m_deltaRotation / delta_time_seconds * 60) / (2 * PI) *
            (compute_gear_and_gear_ratio out_of_bounds_read delta_time_seconds s
              throttle_input).gear_ratio * 2) hle
    simpa [compute_torque, tuning.engine_idle_rpm, tuning.engine_max_rpm] using h
  · have h := Clamp_le (x := tuning.engine_idle_rpm +
          (wheel_info.m_deltaRotation / delta_time_seconds * 60) / (2 * PI) *
            (compute_gear_and_gear_ratio out_of_bounds_read delta_time_seconds s
              throttle_input).gear_ratio * 2) hle
    simpa [compute_torque, tuning.engine_idle_rpm, tuning.engine_max_rpm] using h

/-- Witness for C13: second gear, not shifting, full throttle, a wheel that turned by
1/10 rad in a tick of 1/200 s. -/
theorem engine_rpm_after_compute_torque_witness :
    900 ≤ (compute_torque 0 (1 / 200) ⟨3000, 2, 0, 0, false⟩ 1
        ⟨⟨⟨0, 0, 0⟩, ⟨1, 0, 0⟩, 7 / 25, true⟩, ⟨⟨1, 0, 0⟩, ⟨0, 1, 0⟩, ⟨0, 0, 1⟩⟩, 1 / 4, 1000,
          1 / 10⟩).2.engine_rpm ∧
    (compute_torque 0 (1 / 200) ⟨3000, 2, 0, 0, false⟩ 1
        ⟨⟨⟨0, 0, 0⟩, ⟨1, 0, 0⟩, 7 / 25, true⟩, ⟨⟨1, 0, 0⟩, ⟨0, 1, 0⟩, ⟨0, 0, 1⟩⟩, 1 / 4, 1000,
          1 / 10⟩).2.engine_rpm ≤ 7600 :=
  (engine_rpm_after_compute_torque 0 (1 / 200) ⟨3000, 2, 0, 0, false⟩ 1
    ⟨⟨⟨0, 0, 0⟩, ⟨1, 0, 0⟩, 7 / 25, true⟩, ⟨⟨1, 0, 0⟩, ⟨0, 1, 0⟩, ⟨0, 0, 1⟩⟩, 1 / 4, 1000,
      1 / 10⟩ (by norm_num)).2.2.2

end gearbox

/-! ## Claims on aerodynamics and the anti-roll bar -/

namespace aerodynamics

variable {α : Type} [LinearOrderedField α]

/-- C15: both aerodynamic functions are exactly quadratic in the speed:
`compute_downforce v = aerodynamic_downforce * v ^ 2` and
`compute_drag v = 0.5 * drag_coefficient * frontal_area * air_density * v ^ 2`, so that
doubling the speed multiplies both by 4; at 30 and 60 m/s the downforce is 180 and 720. -/
theorem aerodynamic_forces_quadratic (v : α) :
    compute_downforce v = tuning.aerodynamic_downforce * v ^ 2 ∧
    compute_drag v =
      1 / 2 * tuning.aerodynamics_car_drag_coefficient * tuning.aerodynamics_car_frontal_area *
        tuning.aerodynamics_air_density * v ^ 2 ∧
    compute_downforce (2 * v) = 4 * compute_downforce v ∧
    compute_drag (2 * v) = 4 * compute_drag v ∧
    compute_downforce (60 : α) = 4 * compute_downforce 30 ∧
    compute_drag (60 : α) = 4 * compute_drag 30 ∧
    compute_downforce (30 : α) = 180 := by
  refine ⟨?_, ?_, ?_, ?_, ?_, ?_, ?_⟩
  · unfold compute_downforce; ring
  · unfold compute_drag; ring
  · unfold compute_downforce; ring
  · unfold compute_drag; ring
  · unfold compute_downforce; ring
  · unfold compute_drag; ring
  · unfold compute_downforce tuning.aerodynamic_downforce; norm_num

end aerodynamics

namespace anti_roll_bar

variable {α : Type} [LinearOrderedField α]

/-- Both wheels in contact: two opposite vertical forces. -/
theorem apply_both_in_contact (wheel_info1 wheel_info2 : btWheelInfo α) (force : α)
    (h1 : wheel_info1.m_raycastInfo.m_isInContact = true)
    (h2 : wheel_info2.m_raycastInfo.m_isInContact = true) :
    apply wheel_info1 wheel_info2 force =
      [(⟨0, (wheel_info1.m_raycastInfo.m_suspensionLength -
              wheel_info2.m_raycastInfo.m_suspensionLength) * force, 0⟩,
          wheel_info1.m_raycastInfo.m_contactPointWS),
        (⟨0, -((wheel_info1.m_raycastInfo.m_suspensionLength -
              wheel_info2.m_raycastInfo.m_suspensionLength) * force), 0⟩,
          wheel_info2.m_raycastInfo.m_contactPointWS)] := by
  simp [apply, h1, h2]

/-- Wheel 1 without contact: only wheel 2 can receive a force, the stiffness upward. -/
theorem apply_first_without_contact (wheel_info1 wheel_info2 : btWheelInfo α) (force : α)
    (h1 : wheel_info1.m_raycastInfo.m_isInContact = false) :
    apply wheel_info1 wheel_info2 force =
      if wheel_info2.m_raycastInfo.m_isInContact then
        [(⟨0, force, 0⟩, wheel_info2.m_raycastInfo.m_contactPointWS)]
      else [] := by
  simp [apply, h1]

/-- Wheel 2 without contact: only wheel 1 can receive a force, the stiffness upward. -/
theorem apply_second_without_contact (wheel_info1 wheel_info2 : btWheelInfo α) (force : α)
    (h2 : wheel_info2.m_raycastInfo.m_isInContact = false) :
    apply wheel_info1 wheel_info2 force =
      if wheel_info1.m_raycastInfo.m_isInContact then
        [(⟨0, force, 0⟩, wheel_info1.m_raycastInfo.m_contactPointWS)]
      else [] := by
  cases h1 : wheel_info1.m_raycastInfo.m_isInContact <;> simp [apply, h1, h2]

/-- Every force of the anti-roll bar sits at the contact point of a wheel of the pair that
is in contact. -/
theorem apply_entries_at_wheels_in_contact (wheel_info1 wheel_info2 : btWheelInfo α) (force : α)
    (e : btVector3 α × btVector3 α) (he : e ∈ apply wheel_info1 wheel_info2 force) :
    (wheel_info1.m_raycastInfo.m_isInContact = true ∧
        e.2 = wheel_info1.m_raycastInfo.m_contactPointWS) ∨
    (wheel_info2.m_raycastInfo.m_isInContact = true ∧
        e.2 = wheel_info2.m_raycastInfo.m_contactPointWS) := by
  cases h1 : wheel_info1.m_raycastInfo.m_isInContact <;>
    cases h2 : wheel_info2.m_raycastInfo.m_isInContact <;>
    simp only [apply, h1, h2, Bool.and_self, Bool.and_true, Bool.and_false, Bool.not_false,
      Bool.not_true, Bool.false_eq_true, if_true, if_false, List.append_nil, List.nil_append,
      List.singleton_append, List.mem_cons, List.mem_singleton, List.not_mem_nil, or_false,
      false_and, true_and, false_or, or_false] at he ⊢
  · rw [he]
  · rw [he]
  · rcases he with h | h
    · left; rw [h]
    · right; rw [h]

/-- C16: with both wheels of a pair in contact, `anti_roll_bar::apply` applies exactly two
forces: `(0, f, 0)` at the contact point of wheel 1 and `(0, -f, 0)` at the contact point
of wheel 2, with `f = (suspension_length_1 - suspension_length_2) * stiffness`. -/
theorem anti_roll_force_pair (wheel_info1 wheel_info2 : btWheelInfo α) (force : α)
    (h1 : wheel_info1.m_raycastInfo.m_isInContact = true)
    (h2 : wheel_info2.m_raycastInfo.m_isInContact = true) :
    apply wheel_info1 wheel_info2 force =
      [(⟨0, (wheel_info1.m_raycastInfo.m_suspensionLength -
              wheel_info2.m_raycastInfo.m_suspensionLength) * force, 0⟩,
          wheel_info1.m_raycastInfo.m_contactPointWS),
        (⟨0, -((wheel_info1.m_raycastInfo.m_suspensionLength -
              wheel_info2.m_raycastInfo.m_suspensionLength) * force), 0⟩,
          wheel_info2.m_raycastInfo.m_contactPointWS)] ∧
    (apply wheel_info1 wheel_info2 force).length = 2 :=
  ⟨apply_both_in_contact wheel_info1 wheel_info2 force h1 h2,
    by rw [apply_both_in_contact wheel_info1 wheel_info2 force h1 h2]; rfl⟩

/-- Witness for C16: suspension lengths 0.30 and 0.25 with the front stiffness 500 give the
forces `(0, 25, 0)` and `(0, -25, 0)`. -/
theorem anti_roll_force_pair_witness :
    apply (⟨⟨⟨1, 0, 0⟩, ⟨1, 0, 0⟩, 3 / 10, true⟩, ⟨⟨1, 0, 0⟩, ⟨0, 1, 0⟩, ⟨0, 0, 1⟩⟩, 1 / 4, 0, 0⟩ :
        btWheelInfo ℚ)
      ⟨⟨⟨2, 0, 0⟩, ⟨1, 0, 0⟩, 1 / 4, true⟩, ⟨⟨1, 0, 0⟩, ⟨0, 1, 0⟩, ⟨0, 0, 1⟩⟩, 1 / 4, 0, 0⟩
      tuning.anti_roll_bar_stiffness_front =
    [(⟨0, 25, 0⟩, ⟨1, 0, 0⟩), (⟨0, -25, 0⟩, ⟨2, 0, 0⟩)] :=
  (anti_roll_force_pair
    (⟨⟨⟨1, 0, 0⟩, ⟨1, 0, 0⟩, 3 / 10, true⟩, ⟨⟨1, 0, 0⟩, ⟨0, 1, 0⟩, ⟨0, 0, 1⟩⟩, 1 / 4, 0, 0⟩ :
        btWheelInfo ℚ)
    ⟨⟨⟨2, 0, 0⟩, ⟨1, 0, 0⟩, 1 / 4, true⟩, ⟨⟨1, 0, 0⟩, ⟨0, 1, 0⟩, ⟨0, 0, 1⟩⟩, 1 / 4, 0, 0⟩
    tuning.anti_roll_bar_stiffness_front rfl rfl).1.trans
    (by norm_num [tuning.anti_roll_bar_stiffness_front])

/-- C17: when exactly one wheel of a pair lacks contact, `anti_roll_bar::apply` applies
exactly one force, at the contact point of the wheel that is in contact, vertical, with Y
component `+stiffness`, whichever of the two wheels is the airborne one. -/
theorem anti_roll_force_single (wheel_info1 wheel_info2 : btWheelInfo α) (force : α)
    (hxor : wheel_info1.m_raycastInfo.m_isInContact ≠ wheel_info2.m_raycastInfo.m_isInContact) :
    apply wheel_info1 wheel_info2 force =
      [(⟨0, force, 0⟩,
        if wheel_info1.m_raycastInfo.m_isInContact then wheel_info1.m_raycastInfo.m_contactPointWS
        else wheel_info2.m_raycastInfo.m_contactPointWS)] := by
  cases h1 : wheel_info1.m_raycastInfo.m_isInContact
  · have h2 : wheel_info2.m_raycastInfo.m_isInContact = true := by
      cases h : wheel_info2.m_raycastInfo.m_isInContact
      · exact absurd (h1.trans h.symm) hxor
      · rfl
    rw [apply_first_without_contact _ _ _ h1, h2]
    simp
  · have h2 : wheel_info2.m_raycastInfo.m_isInContact = false := by
      cases h : wheel_info2.m_raycastInfo.m_isInContact
      · rfl
      · exact absurd (h1.trans h.symm) hxor
    rw [apply_second_without_contact _ _ _ h2, h1]
    simp

/-- Witness for C17: the left wheel airborne, and then the right wheel airborne; the single
force is `(0, 500, 0)` at the contact point of the other wheel. -/
theorem anti_roll_force_single_witness :
    apply (⟨⟨⟨1, 0, 0⟩, ⟨1, 0, 0⟩, 3 / 10, false⟩, ⟨⟨1, 0, 0⟩, ⟨0, 1, 0⟩, ⟨0, 0, 1⟩⟩, 1 / 4, 0, 0⟩ :
        btWheelInfo ℚ)
      ⟨⟨⟨2, 0, 0⟩, ⟨1, 0, 0⟩, 1 / 4, true⟩, ⟨⟨1, 0, 0⟩, ⟨0, 1, 0⟩, ⟨0, 0, 1⟩⟩, 1 / 4, 0, 0⟩ 500 =
      [(⟨0, 500, 0⟩, ⟨2, 0, 0⟩)] ∧
    apply (⟨⟨⟨1, 0, 0⟩, ⟨1, 0, 0⟩, 3 / 10, true⟩, ⟨⟨1, 0, 0⟩, ⟨0, 1, 0⟩, ⟨0, 0, 1⟩⟩, 1 / 4, 0, 0⟩ :
        btWheelInfo ℚ)
      ⟨⟨⟨2, 0, 0⟩, ⟨1, 0, 0⟩, 1 / 4, false⟩, ⟨⟨1, 0, 0⟩, ⟨0, 1, 0⟩, ⟨0, 0, 1⟩⟩, 1 / 4, 0, 0⟩ 500 =
      [(⟨0, 500, 0⟩, ⟨1, 0, 0⟩)] :=
  ⟨anti_roll_force_single
      (⟨⟨⟨1, 0, 0⟩, ⟨1, 0, 0⟩, 3 / 10, false⟩, ⟨⟨1, 0, 0⟩, ⟨0, 1, 0⟩, ⟨0, 0, 1⟩⟩, 1 / 4, 0, 0⟩ :
        btWheelInfo ℚ)
      ⟨⟨⟨2, 0, 0⟩, ⟨1, 0, 0⟩, 1 / 4, true⟩, ⟨⟨1, 0, 0⟩, ⟨0, 1, 0⟩, ⟨0, 0, 1⟩⟩, 1 / 4, 0, 0⟩ 500
      (by decide),
    anti_roll_force_single
      (⟨⟨⟨1, 0, 0⟩, ⟨1, 0, 0⟩, 3 / 10, true⟩, ⟨⟨1, 0, 0⟩, ⟨0, 1, 0⟩, ⟨0, 0, 1⟩⟩, 1 / 4, 0, 0⟩ :
        btWheelInfo ℚ)
      ⟨⟨⟨2, 0, 0⟩, ⟨1, 0, 0⟩, 1 / 4, false⟩, ⟨⟨1, 0, 0⟩, ⟨0, 1, 0⟩, ⟨0, 0, 1⟩⟩, 1 / 4, 0, 0⟩ 500
      (by decide)⟩

end anti_roll_bar

/-! ## Claim on wheels without contact -/

namespace Car

open Math.Helper

/-- Every force of the tire friction loop sits at the contact point of a wheel of the
vehicle that is in contact. -/
theorem tire_friction_entries_at_wheels_in_contact (SMALL_FLOAT : ℝ) (Sign : ℝ → ℝ)
    (m_vehicle_chassis : btRigidBody ℝ) (wheels : List (btWheelInfo ℝ))
    (e : btVector3 ℝ × btVector3 ℝ)
    (he : e ∈ ApplyForces_tire_friction SMALL_FLOAT Sign m_vehicle_chassis wheels) :
    ∃ w ∈ wheels, w.m_raycastInfo.m_isInContact = true ∧ e.2 = w.m_raycastInfo.m_contactPointWS := by
  unfold ApplyForces_tire_friction at he
  rw [List.mem_filterMap] at he
  obtain ⟨w, hw, hwe⟩ := he
  refine ⟨w, hw, ?_⟩
  unfold ApplyForces_tire_force_of_wheel at hwe
  cases hc : w.m_raycastInfo.m_isInContact
  · simp [hc] at hwe
  · simp only [hc, if_true, Option.some.injEq] at hwe
    refine ⟨rfl, ?_⟩
    rw [← hwe]
    rfl

/-- C18: no force is applied at the contact point of a wheel that is not in contact.  The
tire friction loop of `Car::ApplyForces` skips such a wheel, and each of its forces sits at
the contact point of a wheel in contact; `anti_roll_bar::apply` applies nothing for a
wheel without contact (its only possible force is the one of the partner wheel), nothing at
all for a pair with neither wheel in contact, and each force of the two anti-roll bars of
the tick sits at the contact point of a wheel in contact. -/
theorem no_force_at_wheel_without_contact (SMALL_FLOAT : ℝ) (Sign : ℝ → ℝ)
    (m_vehicle_chassis : btRigidBody ℝ) (wheel_fl wheel_fr wheel_rl wheel_rr : btWheelInfo ℝ) :
    (∀ w ∈ [wheel_fl, wheel_fr, wheel_rl, wheel_rr], w.m_raycastInfo.m_isInContact = false →
      ApplyForces_tire_force_of_wheel SMALL_FLOAT Sign m_vehicle_chassis w = none) ∧
    (∀ e ∈ ApplyForces_tire_friction SMALL_FLOAT Sign m_vehicle_chassis
        [wheel_fl, wheel_fr, wheel_rl, wheel_rr],
      ∃ w ∈ [wheel_fl, wheel_fr, wheel_rl, wheel_rr],
        w.m_raycastInfo.m_isInContact = true ∧ e.2 = w.m_raycastInfo.m_contactPointWS) ∧
    (∀ (w1 w2 : btWheelInfo ℝ) (force : ℝ), w1.m_raycastInfo.m_isInContact = false →
      anti_roll_bar.apply w1 w2 force =
        if w2.m_raycastInfo.m_isInContact then
          [(⟨0, force, 0⟩, w2.m_raycastInfo.m_contactPointWS)]
        else []) ∧
    (∀ (w1 w2 : btWheelInfo ℝ) (force : ℝ), w2.m_raycastInfo.m_isInContact = false →
      anti_roll_bar.apply w1 w2 force =
        if w1.m_raycastInfo.m_isInContact then
          [(⟨0, force, 0⟩, w1.m_raycastInfo.m_contactPointWS)]
        else []) ∧
    (∀ (w1 w2 : btWheelInfo ℝ) (force : ℝ), w1.m_raycastInfo.m_isInContact = false →
      w2.m_raycastInfo.m_isInContact = false → anti_roll_bar.apply w1 w2 force = []) ∧
    (∀ e ∈ ApplyForces_anti_roll_bar wheel_fl wheel_fr wheel_rl wheel_rr,
      ∃ w ∈ [wheel_fl, wheel_fr, wheel_rl, wheel_rr],
        w.m_raycastInfo.m_isInContact = true ∧ e.2 = w.m_raycastInfo.m_contactPointWS) := by
  refine ⟨?_, ?_, ?_, ?_, ?_, ?_⟩
  · intro w _ hc
    simp [ApplyForces_tire_force_of_wheel, hc]
  · intro e he
    exact tire_friction_entries_at_wheels_in_contact SMALL_FLOAT Sign m_vehicle_chassis _ e he
  · intro w1 w2 force h1
    exact anti_roll_bar.apply_first_without_contact w1 w2 force h1
  · intro w1 w2 force h2
    exact anti_roll_bar.apply_second_without_contact w1 w2 force h2
  · intro w1 w2 force h1 h2
    rw [anti_roll_bar.apply_first_without_contact w1 w2 force h1, h2]
    rfl
  · intro e he
    unfold ApplyForces_anti_roll_bar at he
    rw [List.mem_append] at he
    rcases he with h | h
    · rcases anti_roll_bar.apply_entries_at_wheels_in_contact _ _ _ e h with ⟨hc, hp⟩ | ⟨hc, hp⟩
      · exact ⟨wheel_fl, by simp, hc, hp⟩
      · exact ⟨wheel_fr, by simp, hc, hp⟩
    · rcases anti_roll_bar.apply_entries_at_wheels_in_contact _ _ _ e h with ⟨hc, hp⟩ | ⟨hc, hp⟩
      · exact ⟨wheel_rl, by simp, hc, hp⟩
      · exact ⟨wheel_rr, by simp, hc, hp⟩

end Car

/-! ## Claims on steering and braking -/

namespace Car

open Math.Helper

variable {α : Type} [LinearOrderedField α]

/-- A Lerp step with a factor between 0 and 1 stays between its two ends. -/
theorem Lerp_between {a t s : α} (h0 : 0 ≤ s) (h1 : s ≤ 1) :
    min a t ≤ Lerp a t s ∧ Lerp a t s ≤ max a t := by
  unfold Lerp
  rcases le_total a t with h | h
  · rw [min_eq_left h, max_eq_right h]
    constructor
    · nlinarith [mul_nonneg (sub_nonneg.mpr h) h0]
    · nlinarith [mul_nonneg (sub_nonneg.mpr h) (sub_nonneg.mpr h1)]
  · rw [min_eq_right h, max_eq_left h]
    constructor
    · nlinarith [mul_nonneg (sub_nonneg.mpr h) (sub_nonneg.mpr h1)]
    · nlinarith [mul_nonneg (sub_nonneg.mpr h) h0]

/-- C19 (as stated, refuted): with the tick time 1 s, the steering angle 1 and no steering
input (target 0) the new steering angle is -4, which is not between 1 and 0. -/
theorem steering_angle_overshoots :
    (0 : ℝ) ≤ 1 ∧
    HandleInput_steering_angle_target false false = 0 ∧
    HandleInput_steering_angle false false 1 1 = -4 ∧
    ¬ (min 1 (HandleInput_steering_angle_target false false) ≤
          HandleInput_steering_angle false false 1 1 ∧
        HandleInput_steering_angle false false 1 1 ≤
          max 1 (HandleInput_steering_angle_target false false)) := by
  have ht : HandleInput_steering_angle_target false false = 0 := by
    simp [HandleInput_steering_angle_target]
  have hv : HandleInput_steering_angle false false 1 1 = -4 := by
    unfold HandleInput_steering_angle
    rw [ht]
    norm_num [Lerp, tuning.steering_return_speed]
  refine ⟨zero_le_one, ht, hv, ?_⟩
  rw [hv, ht]
  norm_num

/-- C19 (amended): for every tick time `dt` with `0 ≤ dt` and
`steering_return_speed * dt ≤ 1` (that is `dt ≤ 0.2` s), every current steering angle and
every steering input, the steering angle after the interpolation of `HandleInput` lies
between the current angle and the target inclusive, and its distance to the target is the
old distance times `1 - steering_return_speed * dt`. -/
theorem steering_angle_between (steer_left steer_right : Bool)
    (delta_time_sec m_steering_angle : ℝ) (hdt : 0 ≤ delta_time_sec)
    (hstep : tuning.steering_return_speed * delta_time_sec ≤ 1) :
    (HandleInput_steering_angle_target steer_left steer_right = -tuning.steering_angle_max ∨
      HandleInput_steering_angle_target steer_left steer_right = 0 ∨
      HandleInput_steering_angle_target steer_left steer_right = tuning.steering_angle_max) ∧
    min m_steering_angle (HandleInput_steering_angle_target steer_left steer_right) ≤
      HandleInput_steering_angle steer_left steer_right delta_time_sec m_steering_angle ∧
    HandleInput_steering_angle steer_left steer_right delta_time_sec m_steering_angle ≤
      max m_steering_angle (HandleInput_steering_angle_target steer_left steer_right) ∧
    HandleInput_steering_angle steer_left steer_right delta_time_sec m_steering_angle -
        HandleInput_steering_angle_target steer_left steer_right =
      (m_steering_angle - HandleInput_steering_angle_target steer_left steer_right) *
        (1 - tuning.steering_return_speed * delta_time_sec) := by
  have h0 : (0 : ℝ) ≤ tuning.steering_return_speed * delta_time_sec := by
    unfold tuning.steering_return_speed
    positivity
  obtain ⟨hlo, hhi⟩ := Lerp_between (a := m_steering_angle)
    (t := HandleInput_steering_angle_target steer_left steer_right) h0 hstep
  refine ⟨?_, hlo, hhi, ?_⟩
  · unfold HandleInput_steering_angle_target
    cases steer_left <;> cases steer_right <;> simp
  · unfold HandleInput_steering_angle Lerp
    ring

/-- Witness for C19 (amended): a tick of 1/200 s, steering angle 0, steering to the right. -/
theorem steering_angle_between_witness :
    HandleInput_steering_angle false true (1 / 200) 0 ≤
      max 0 (HandleInput_steering_angle_target false true) :=
  (steering_angle_between false true (1 / 200) 0 (by norm_num)
    (by norm_num [tuning.steering_return_speed])).2.2.1

/-- One braking block keeps the brake force between 0 and `brake_force_max`. -/
theorem ApplyForces_break_force_range (key_space m_break_until_opposite_torque : Bool)
    (delta_time_sec m_break_force : α) (hdt : 0 ≤ delta_time_sec)
    (h0 : 0 ≤ m_break_force) (h1 : m_break_force ≤ tuning.brake_force_max) :
    0 ≤ ApplyForces_break_force key_space m_break_until_opposite_torque delta_time_sec
        m_break_force ∧
    ApplyForces_break_force key_space m_break_until_opposite_torque delta_time_sec
        m_break_force ≤ tuning.brake_force_max := by
  have hmax : (0 : α) ≤ tuning.brake_force_max := le_trans h0 h1
  have hramp : (0 : α) ≤ tuning.brake_ramp_speed * delta_time_sec := by
    unfold tuning.brake_ramp_speed
    positivity
  unfold ApplyForces_break_force Math.Helper.Min Math.Helper.Max
  cases key_space <;> cases m_break_until_opposite_torque <;>
    simp only [if_true, if_false, Bool.false_eq_true, gt_iff_lt, zero_lt_one, lt_self_iff_false,
      mul_one] <;>
    split_ifs <;> constructor <;> linarith

/-- C20: the brake range is an invariant: from a brake force between 0 and
`brake_force_max`, after any finite sequence of ticks with arbitrary brake requests (space
key, `m_break_until_opposite_torque`) and tick times that are not negative, the brake
force is between 0 and `brake_force_max`. -/
theorem break_force_range_invariant (ticks : List (Bool × Bool × α)) (m_break_force : α)
    (hdt : ∀ t ∈ ticks, 0 ≤ t.2.2) (h0 : 0 ≤ m_break_force)
    (h1 : m_break_force ≤ tuning.brake_force_max) :
    0 ≤ break_force_after_ticks ticks m_break_force ∧
    break_force_after_ticks ticks m_break_force ≤ tuning.brake_force_max := by
  induction ticks generalizing m_break_force with
  | nil => exact ⟨h0, h1⟩
  | cons t rest ih =>
    have hstep := ApplyForces_break_force_range t.1 t.2.1 t.2.2 m_break_force
      (hdt t (List.mem_cons_self _ _)) h0 h1
    have hrest : ∀ u ∈ rest, 0 ≤ u.2.2 := fun u hu => hdt u (List.mem_cons_of_mem _ hu)
    exact ih _ hrest hstep.1 hstep.2

/-- Witness for C20: two braking ticks of 1/200 s, one long tick under
`m_break_until_opposite_torque` and one tick of release, starting from no brake force. -/
theorem break_force_range_invariant_witness :
    0 ≤ break_force_after_ticks
        [(true, false, (1 / 200 : ℚ)), (true, false, 1 / 200), (false, true, 1),
          (false, false, 1 / 200)] 0 ∧
    break_force_after_ticks
        [(true, false, (1 / 200 : ℚ)), (true, false, 1 / 200), (false, true, 1),
          (false, false, 1 / 200)] 0 ≤ tuning.brake_force_max :=
  break_force_range_invariant
    [(true, false, (1 / 200 : ℚ)), (true, false, 1 / 200), (false, true, 1),
      (false, false, 1 / 200)] 0
    (by
      intro t ht
      simp only [List.mem_cons, List.mem_singleton, List.not_mem_nil, or_false] at ht
      rcases ht with h | h | h | h <;> subst h <;> norm_num)
    (le_refl 0) (by norm_num [tuning.brake_force_max])

end Car

/-! ## Claim on the brake ramp -/

namespace Car

open Math.Helper

variable {α : Type} [LinearOrderedField α]

/-- With braking requested the braking block adds the ramp step and caps the result. -/
theorem ApplyForces_break_force_of_request (key_space m_break_until_opposite_torque : Bool)
    (delta_time_sec m_break_force : α)
    (hreq : (key_space || m_break_until_opposite_torque) = true) :
    ApplyForces_break_force key_space m_break_until_opposite_torque delta_time_sec m_break_force =
      min (m_break_force + tuning.brake_ramp_speed * delta_time_sec) tuning.brake_force_max := by
  have hmin : ∀ a b : α, Math.Helper.Min a b = min a b := by
    intro a b
    unfold Math.Helper.Min
    rcases lt_or_le a b with h | h
    · rw [if_pos h, min_eq_left (le_of_lt h)]
    · rw [if_neg (not_lt.mpr h), min_eq_right h]
  unfold ApplyForces_break_force
  cases key_space <;> cases m_break_until_opposite_torque <;>
    simp only [Bool.or_self, Bool.or_true, Bool.or_false, Bool.false_eq_true] at hreq <;>
    simp only [if_true, if_false, Bool.false_eq_true, gt_iff_lt, zero_lt_one, mul_one, hmin]

/-- The brake force after braking ticks of the same length, from any start below the cap. -/
theorem break_force_after_braking_ticks (delta_time_sec : α) (hdt : 0 ≤ delta_time_sec)
    (ticks : List (Bool × Bool × α)) (m_break_force : α)
    (hticks : ∀ t ∈ ticks, (t.1 || t.2.1) = true ∧ t.2.2 = delta_time_sec)
    (h1 : m_break_force ≤ tuning.brake_force_max) :
    break_force_after_ticks ticks m_break_force =
      min (m_break_force + ticks.length * tuning.brake_ramp_speed * delta_time_sec)
        tuning.brake_force_max := by
  have hramp : (0 : α) ≤ tuning.brake_ramp_speed * delta_time_sec := by
    unfold tuning.brake_ramp_speed
    positivity
  induction ticks generalizing m_break_force with
  | nil =>
    simp only [break_force_after_ticks, List.foldl_nil, List.length_nil, Nat.cast_zero, zero_mul,
      add_zero]
    exact (min_eq_left h1).symm
  | cons t rest ih =>
    obtain ⟨hreq, hdt'⟩ := hticks t (List.mem_cons_self _ _)
    have hrest : ∀ u ∈ rest, (u.1 || u.2.1) = true ∧ u.2.2 = delta_time_sec :=
      fun u hu => hticks u (List.mem_cons_of_mem _ hu)
    have hstep := ApplyForces_break_force_of_request t.1 t.2.1 t.2.2 m_break_force hreq
    rw [hdt'] at hstep
    have hfold : break_force_after_ticks (t :: rest) m_break_force =
        break_force_after_ticks rest
          (ApplyForces_break_force t.1 t.2.1 t.2.2 m_break_force) := rfl
    rw [hfold, hdt', hstep, ih _ hrest (min_le_right _ _)]
    have hn : (0 : α) ≤ (rest.length : α) * tuning.brake_ramp_speed * delta_time_sec := by
      have : (0 : α) ≤ (rest.length : α) := Nat.cast_nonneg _
      rw [mul_assoc]
      exact mul_nonneg this hramp
    simp only [List.length_cons, Nat.cast_add, Nat.cast_one]
    rcases le_or_lt (m_break_force + tuning.brake_ramp_speed * delta_time_sec)
        tuning.brake_force_max with h | h
    · rw [min_eq_left h]
      congr 1
      ring
    · rw [min_eq_right (le_of_lt h), min_eq_right (by linarith), min_eq_right]
      have : m_break_force + (↑rest.length + 1) * tuning.brake_ramp_speed * delta_time_sec =
          m_break_force + tuning.brake_ramp_speed * delta_time_sec +
            ↑rest.length * tuning.brake_ramp_speed * delta_time_sec := by ring
      rw [this]
      linarith

/-- C21: from brake force 0, after `n` consecutive ticks with braking requested (space key
or `m_break_until_opposite_torque`) at one tick time `dt > 0`, the brake force is
`min (n * brake_ramp_speed * dt) brake_force_max`; it equals `brake_force_max` exactly when
`n * dt` is at least `brake_force_max / brake_ramp_speed`, which is 0.16 s. -/
theorem break_force_ramp (delta_time_sec : α) (ticks : List (Bool × Bool × α))
    (hdt : 0 < delta_time_sec)
    (hticks : ∀ t ∈ ticks, (t.1 || t.2.1) = true ∧ t.2.2 = delta_time_sec) :
    break_force_after_ticks ticks 0 =
      min (ticks.length * tuning.brake_ramp_speed * delta_time_sec) tuning.brake_force_max ∧
    (break_force_after_ticks ticks 0 = tuning.brake_force_max ↔
      tuning.brake_force_max / tuning.brake_ramp_speed ≤ ticks.length * delta_time_sec) ∧
    (tuning.brake_force_max / tuning.brake_ramp_speed : α) = 16 / 100 := by
  have h := break_force_after_braking_ticks delta_time_sec (le_of_lt hdt) ticks 0 hticks
    (by unfold tuning.brake_force_max; norm_num)
  rw [zero_add] at h
  refine ⟨h, ?_, ?_⟩
  · rw [h, min_eq_right_iff]
    unfold tuning.brake_force_max tuning.brake_ramp_speed
    rw [div_le_iff₀ (by norm_num)]
    constructor <;> intro h' <;> linarith
  · unfold tuning.brake_force_max tuning.brake_ramp_speed
    norm_num

/-- Witness for C21: 32 braking ticks of 1/200 s (0.16 s) reach `brake_force_max`. -/
theorem break_force_ramp_witness :
    break_force_after_ticks (List.replicate 32 (true, false, (1 / 200 : ℚ))) 0 =
      tuning.brake_force_max :=
  (break_force_ramp (1 / 200 : ℚ) (List.replicate 32 (true, false, (1 / 200 : ℚ)))
    (by norm_num)
    (by
      intro t ht
      rw [List.eq_of_mem_replicate ht]
      exact ⟨rfl, rfl⟩)).2.1.mpr
    (by
      simp only [List.length_replicate]
      norm_num [tuning.brake_force_max, tuning.brake_ramp_speed])

end Car

/-! ## Claims on second gear from reverse, the ratio lookup and the torque range -/

namespace gearbox

variable {α : Type} [LinearOrderedField α]

/-- C27: one tick can take the gearbox from reverse straight to second gear: from
`current_gear = -1` with `is_shifting` false, a positive throttle and an engine rpm above
`gearbox_rpm_upshift`, `compute_gear_and_gear_ratio` ends with `current_gear = 2` and
`is_shifting` true (the throttle block selects first gear and the rpm test shifts up at
once). -/
theorem reverse_to_second_gear_in_one_tick (out_of_bounds_read delta_time_seconds : α)
    (s : GearboxState α) (throttle_input : α) (hgear : s.current_gear = -1)
    (hs : s.is_shifting = false) (hthr : throttle_input > 0)
    (hrpm : s.engine_rpm > tuning.gearbox_rpm_upshift) :
    (compute_gear_and_gear_ratio out_of_bounds_read delta_time_seconds s
        throttle_input).current_gear = 2 ∧
    (compute_gear_and_gear_ratio out_of_bounds_read delta_time_seconds s
        throttle_input).is_shifting = true := by
  have hsel : gear_selected_by_throttle s.current_gear throttle_input = 1 := by
    unfold gear_selected_by_throttle
    rw [if_neg (not_lt.mpr (le_of_lt hthr)), if_pos hthr, hgear]
    rfl
  have hcount : to_size_t 1 < gearbox_ratios_count := by
    unfold to_size_t gearbox_ratios_count
    norm_num
  rw [current_gear_after, is_shifting_after]
  simp only [hs, hsel, Bool.false_eq_true, if_false]
  rw [if_pos ⟨hrpm, hcount⟩, if_pos ⟨hrpm, hcount⟩]
  exact ⟨rfl, rfl⟩

/-- Witness for C27: reverse gear at 7000 rpm with full throttle. -/
theorem reverse_to_second_gear_in_one_tick_witness :
    (compute_gear_and_gear_ratio (0 : ℚ) (1 / 200) ⟨7000, -1, 0, 0, false⟩ 1).current_gear = 2 ∧
    (compute_gear_and_gear_ratio (0 : ℚ) (1 / 200) ⟨7000, -1, 0, 0, false⟩ 1).is_shifting = true :=
  reverse_to_second_gear_in_one_tick (0 : ℚ) (1 / 200) ⟨7000, -1, 0, 0, false⟩ 1 rfl rfl
    (by norm_num) (by norm_num [tuning.gearbox_rpm_upshift, tuning.engine_max_rpm])

/-- C28 (evaluation of the code): in neutral (`current_gear = 0`) with `is_shifting` false
and throttle exactly 0 the gear after the throttle block is 0, which is not -1, so the
ratio is read at index `0 - 1 = -1`, outside the five entries of `gearbox_ratios`; the
gear ratio left by the tick is then whatever that read yields.  For the other gears from
-1 to 5 and for a throttle that is not 0 the read is inside the array. -/
theorem gear_ratio_lookup_out_of_bounds_in_neutral (out_of_bounds_read delta_time_seconds : α)
    (engine_rpm gear_ratio last_shift_time : α) :
    gear_selected_by_throttle 0 (0 : α) = 0 ∧
    gear_selected_by_throttle 0 (0 : α) - 1 = -1 ∧
    ¬ (0 ≤ gear_selected_by_throttle 0 (0 : α) - 1 ∧ gear_selected_by_throttle 0 (0 : α) - 1 ≤ 4) ∧
    (gearbox_ratios_at (gear_selected_by_throttle 0 (0 : α) - 1) : Option α) = none ∧
    (compute_gear_and_gear_ratio out_of_bounds_read delta_time_seconds
        ⟨engine_rpm, 0, gear_ratio, last_shift_time, false⟩ 0).gear_ratio =
      out_of_bounds_read * tuning.gearbox_final_drive ∧
    (∀ (g : Int) (throttle_input : α), -1 ≤ g → g ≤ 5 →
      gear_selected_by_throttle g throttle_input ≠ -1 →
      ¬ (g = 0 ∧ throttle_input = 0) →
      0 ≤ gear_selected_by_throttle g throttle_input - 1 ∧
        gear_selected_by_throttle g throttle_input - 1 ≤ 4) := by
  have hsel : gear_selected_by_throttle 0 (0 : α) = 0 := by
    simp [gear_selected_by_throttle]
  refine ⟨hsel, ?_, ?_, ?_, ?_, ?_⟩
  · rw [hsel]; rfl
  · rw [hsel]; decide
  · rw [hsel]; rfl
  · rw [gear_ratio_after]
    simp only [Bool.false_eq_true, if_false, hsel]
    rfl
  · intro g throttle_input hlo hhi hne hnot
    unfold gear_selected_by_throttle at hne ⊢
    split_ifs at hne ⊢ with h1 h2 h3
    · exact absurd rfl hne
    · omega
    · omega
    · have h0 : throttle_input = 0 := le_antisymm (not_lt.mp h2) (not_lt.mp h1)
      have hg : g ≠ 0 := fun hg => hnot ⟨hg, h0⟩
      omega

/-- C29 (evaluation of the code): at the idle rpm 900, the lower end of the operating
range, `torque_curve` returns 900, far above 1; below the first map point it returns
`engine_idle_rpm + slope * (rpm - engine_idle_rpm)` with the idle rpm as anchor value, the
line from `(900, 900)` to `(1000, 0.2)`, which is above 1 for every rpm from 900 to 999.
From 1000 to 7600 the value is between 0 and 1. -/
theorem torque_curve_not_normalized_below_first_point (engine_rpm : α) :
    torque_curve (900 : α) = 900 ∧
    ¬ (torque_curve (900 : α) ≤ 1) ∧
    (900 ≤ engine_rpm → engine_rpm ≤ 999 → 1 < torque_curve engine_rpm) ∧
    (1000 ≤ engine_rpm → engine_rpm ≤ 7600 →
      0 ≤ torque_curve engine_rpm ∧ torque_curve engine_rpm ≤ 1) := by
  have hlow : ∀ r : α, r < 1000 →
      torque_curve r = 900 + (2 / 10 - 900) / (1000 - 900) * (r - 900) := by
    intro r hr
    unfold torque_curve
    simp only [tuning.engine_torque_map, List.headD_cons, tuning.engine_idle_rpm]
    rw [if_pos hr]
  have h900 : torque_curve (900 : α) = 900 := by
    rw [hlow 900 (by norm_num)]
    norm_num
  refine ⟨h900, ?_, ?_, ?_⟩
  · rw [h900]
    norm_num
  · intro h1 h2
    rw [hlow engine_rpm (by linarith)]
    have : (2 / 10 - 900 : α) / (1000 - 900) * (engine_rpm - 900) =
        -(8998 / 1000) * (engine_rpm - 900) := by ring
    rw [this]
    linarith
  · intro h1 h2
    rcases le_or_lt engine_rpm 7000 with h | h
    · rw [torque_curve_of_mem_range engine_rpm h1 h]
      split_ifs <;> constructor <;> linarith
    · rw [torque_curve_above_last engine_rpm h]
      constructor <;> norm_num

end gearbox

/-! ## Lemmas on the tick -/

namespace gearbox

open Math.Helper

variable {α : Type} [LinearOrderedField α]

end gearbox

namespace Car

open Math.Helper

variable {α : Type} [LinearOrderedField α]

/-- Below the deadband the movement state is `Stationary`. -/
theorem Tick_movement_direction_of_slow {speed : α} (h : Abs speed < 1 / 10) :
    Tick_movement_direction speed = CarMovementState.Stationary := by
  unfold Abs at h
  unfold Tick_movement_direction
  split_ifs at h with hx
  · rw [if_neg (by linarith), if_neg (by linarith)]
  · rw [if_neg (by linarith), if_neg (by linarith)]

/-- A tick with a vehicle and a chassis runs `HandleInput` and then `ApplyForces`. -/
theorem Tick_eq_some (out_of_bounds_read delta_time_sec : ℝ) (input : Input) (car : Car ℝ)
    (vehicle : btRaycastVehicle ℝ) (chassis : btRigidBody ℝ)
    (hv : car.m_vehicle = some vehicle) (hc : car.m_vehicle_chassis = some chassis) :
    Tick out_of_bounds_read delta_time_sec input car =
      some { Tick_HandleInput out_of_bounds_read delta_time_sec input vehicle car with
        m_aerodynamics_drag := aerodynamics.compute_downforce (GetSpeedMetersPerSecond vehicle)
        m_aerodynamics_drg := aerodynamics.compute_drag (GetSpeedMetersPerSecond vehicle)
        m_break_force :=
          ApplyForces_break_force input.key_space
            (Tick_HandleInput out_of_bounds_read delta_time_sec input vehicle
              car).m_break_until_opposite_torque delta_time_sec
            (Tick_HandleInput out_of_bounds_read delta_time_sec input vehicle
              car).m_break_force } := by
  have hc' : (Tick_HandleInput out_of_bounds_read delta_time_sec input vehicle
      car).m_vehicle_chassis = some chassis := hc
  simp only [Tick, hv, ApplyForces, hc']

end Car

/-! ## Claim on braking against the motion -/

namespace Car

open Math.Helper

variable {α : Type} [LinearOrderedField α]

/-- The throttle block without accelerate and reverse input: the flag is cleared and the
throttle is not written. -/
theorem HandleInput_throttle_of_no_input (speed : α) (dir : CarMovementState) (m_throttle : α)
    (flag : Bool) :
    HandleInput_throttle speed dir false false m_throttle flag = (m_throttle, false) := by
  simp [HandleInput_throttle]

/-- The throttle block with an input pressed outside the deadband keeps a set flag. -/
theorem HandleInput_throttle_flag_kept (speed : α) (dir : CarMovementState)
    (accelerate reverse : Bool) (m_throttle : α)
    (hspeed : ¬ Abs speed < 1 / 10) (hin : accelerate = true ∨ reverse = true) :
    (HandleInput_throttle speed dir accelerate reverse m_throttle true).2 = true := by
  unfold HandleInput_throttle
  simp only [if_neg hspeed]
  cases accelerate <;> cases reverse <;> simp only [Bool.false_eq_true, if_true, if_false] <;>
    first
    | (split_ifs <;> rfl)
    | (simp at hin)

/-- The throttle block inside the deadband with the movement state `Stationary` leaves the
flag cleared. -/
theorem HandleInput_throttle_flag_cleared (speed : α) (accelerate reverse : Bool)
    (m_throttle : α) (flag : Bool) (hspeed : Abs speed < 1 / 10) :
    (HandleInput_throttle speed CarMovementState.Stationary accelerate reverse m_throttle
      flag).2 = false := by
  unfold HandleInput_throttle
  simp only [if_pos hspeed]
  cases accelerate <;> cases reverse <;> simp

end Car

/-! ## Claims on the brake flag and the throttle -/

namespace Car

open Math.Helper

/-- C23 (as stated, refuted): a car moving forward at 20 m/s with
`m_break_until_opposite_torque` set and no accelerate or reverse input: the speed is
outside the deadband, and the flag is cleared by the tick. -/
theorem break_flag_cleared_without_input :
    ¬ Abs (GetSpeedMetersPerSecond example_vehicle) < 1 / 10 ∧
    (Tick 0 (1 / 200) ⟨false, false, false, false, false⟩
        { example_car_moving_forward with m_break_until_opposite_torque := true }).map
      (fun car => car.m_break_until_opposite_torque) = some false := by
  constructor
  · unfold Abs GetSpeedMetersPerSecond example_vehicle
    norm_num
  · rw [Tick_eq_some 0 (1 / 200) _ _ example_vehicle example_chassis rfl rfl]
    show some (HandleInput_throttle (GetSpeedMetersPerSecond example_vehicle)
      (Tick_movement_direction (GetSpeedMetersPerSecond example_vehicle)) false false
      example_car_moving_forward.m_throttle true).2 = some false
    rw [HandleInput_throttle_of_no_input]

/-- C23 (amended): once `m_break_until_opposite_torque` is true, it is true after a later
tick (with vehicle and chassis) in which the speed is outside the deadband and the
accelerate or the reverse input is pressed; it is false after every tick with neither
accelerate nor reverse input, whatever the speed, and after every tick in which
`|speed| < 0.1`. -/
theorem break_flag_kept_only_with_input (out_of_bounds_read delta_time_sec : ℝ)
    (input : Input) (car : Car ℝ) (vehicle : btRaycastVehicle ℝ) (chassis : btRigidBody ℝ)
    (hv : car.m_vehicle = some vehicle) (hc : car.m_vehicle_chassis = some chassis)
    (hflag : car.m_break_until_opposite_torque = true) :
    ∃ car', Tick out_of_bounds_read delta_time_sec input car = some car' ∧
      (¬ Abs (GetSpeedMetersPerSecond vehicle) < 1 / 10 →
        input.accelerate = true ∨ input.reverse = true →
        car'.m_break_until_opposite_torque = true) ∧
      (input.accelerate = false → input.reverse = false →
        car'.m_break_until_opposite_torque = false) ∧
      (Abs (GetSpeedMetersPerSecond vehicle) < 1 / 10 →
        car'.m_break_until_opposite_torque = false) := by
  refine ⟨_, Tick_eq_some out_of_bounds_read delta_time_sec input car vehicle chassis hv hc,
    ?_, ?_, ?_⟩
  · intro hspeed hin
    show (HandleInput_throttle (GetSpeedMetersPerSecond vehicle)
      (Tick_movement_direction (GetSpeedMetersPerSecond vehicle)) input.accelerate input.reverse
      car.m_throttle car.m_break_until_opposite_torque).2 = true
    rw [hflag]
    exact HandleInput_throttle_flag_kept _ _ _ _ _ hspeed hin
  · intro hacc hrev
    show (HandleInput_throttle (GetSpeedMetersPerSecond vehicle)
      (Tick_movement_direction (GetSpeedMetersPerSecond vehicle)) input.accelerate input.reverse
      car.m_throttle car.m_break_until_opposite_torque).2 = false
    rw [hacc, hrev, HandleInput_throttle_of_no_input]
  · intro hspeed
    show (HandleInput_throttle (GetSpeedMetersPerSecond vehicle)
      (Tick_movement_direction (GetSpeedMetersPerSecond vehicle)) input.accelerate input.reverse
      car.m_throttle car.m_break_until_opposite_torque).2 = false
    rw [Tick_movement_direction_of_slow hspeed]
    exact HandleInput_throttle_flag_cleared _ _ _ _ _ hspeed

/-- Witness for C23 (amended): the car moving forward at 20 m/s with the flag set and the
reverse input held keeps the flag. -/
theorem break_flag_kept_only_with_input_witness :
    ∃ car', Tick 0 (1 / 200) ⟨false, true, false, false, false⟩
        { example_car_moving_forward with m_break_until_opposite_torque := true } = some car' ∧
      car'.m_break_until_opposite_torque = true := by
  obtain ⟨car', h, hkept, _, _⟩ := break_flag_kept_only_with_input 0 (1 / 200)
    ⟨false, true, false, false, false⟩
    { example_car_moving_forward with m_break_until_opposite_torque := true }
    example_vehicle example_chassis rfl rfl rfl
  refine ⟨car', h, hkept ?_ (Or.inr rfl)⟩
  unfold Abs GetSpeedMetersPerSecond example_vehicle
  norm_num

end Car

/-! ## Claims on the zero tick and on Create -/

namespace Car

open Math.Helper

/-- A tick with a vehicle and a null chassis does not get through `ApplyForces`. -/
theorem Tick_eq_none (out_of_bounds_read delta_time_sec : ℝ) (input : Input) (car : Car ℝ)
    (vehicle : btRaycastVehicle ℝ) (hv : car.m_vehicle = some vehicle)
    (hc : car.m_vehicle_chassis = none) :
    Tick out_of_bounds_read delta_time_sec input car = none := by
  have hc' : (Tick_HandleInput out_of_bounds_read delta_time_sec input vehicle
      car).m_vehicle_chassis = none := hc
  simp only [Tick, hv, ApplyForces, hc']

/-- C26 (as stated, refuted): after `Create` with a null chassis on the car at rest the
vehicle handle is not null, and a later tick does not return the state unchanged. -/
theorem create_with_null_chassis_creates_vehicle :
    (Create example_vehicle none example_car_at_rest).m_vehicle ≠ none ∧
    Tick 0 (1 / 200) ⟨true, false, false, false, false⟩
        (Create example_vehicle none example_car_at_rest) ≠
      some (Create example_vehicle none example_car_at_rest) := by
  constructor
  · simp [Create]
  · rw [Tick_eq_none 0 (1 / 200) _ (Create example_vehicle none example_car_at_rest)
      { example_vehicle with m_chassisBody := none } rfl rfl]
    exact fun h => Option.noConfusion h

/-- C26 (amended): `Create` has no check of the chassis handle: for every handle, null or
not, it stores the handle and replaces `m_vehicle` by the newly created vehicle bound to
it, so `m_vehicle` is not null after `Create`; `Tick` returns at its first check, leaving
the state unchanged, exactly for a state whose `m_vehicle` is null, and after `Create` with
a chassis that is not null a tick runs `HandleInput` and `ApplyForces`. -/
theorem create_always_creates_vehicle (new_vehicle : btRaycastVehicle ℝ)
    (chassis : Option (btRigidBody ℝ)) (car : Car ℝ) (out_of_bounds_read delta_time_sec : ℝ)
    (input : Input) :
    (Create new_vehicle chassis car).m_vehicle =
      some { new_vehicle with m_chassisBody := chassis } ∧
    (Create new_vehicle chassis car).m_vehicle ≠ none ∧
    (Create new_vehicle chassis car).m_vehicle_chassis = chassis ∧
    (car.m_vehicle = none → Tick out_of_bounds_read delta_time_sec input car = some car) ∧
    (∀ c, chassis = some c →
      Tick out_of_bounds_read delta_time_sec input (Create new_vehicle chassis car) =
        ApplyForces delta_time_sec input { new_vehicle with m_chassisBody := chassis }
          (Tick_HandleInput out_of_bounds_read delta_time_sec input
            { new_vehicle with m_chassisBody := chassis } (Create new_vehicle chassis car)) ∧
      (Tick out_of_bounds_read delta_time_sec input
        (Create new_vehicle chassis car)).isSome = true) := by
  refine ⟨rfl, by simp [Create], rfl, ?_, ?_⟩
  · intro h
    simp only [Tick, h]
  · intro c hc
    refine ⟨rfl, ?_⟩
    rw [Tick_eq_some out_of_bounds_read delta_time_sec input (Create new_vehicle chassis car)
      { new_vehicle with m_chassisBody := chassis } c rfl (by rw [← hc]; rfl)]
    rfl

end Car

/-! ## Claim on SetWheelTransform -/

namespace Car

/-- The length after `vector_resize`. -/
theorem vector_resize_length {T : Type} (l : List (Option T)) (n : Nat) :
    (vector_resize l n).length = n := by
  unfold vector_resize
  rw [List.length_append, List.length_take, List.length_replicate]
  omega

/-- The wheel indices queried by `UpdateTransforms` are the indices of the list that
hold a transform which is not null. -/
theorem UpdateTransforms_wheel_queries_mem {T : Type} (l : List (Option T)) (j : Nat) :
    j ∈ UpdateTransforms_wheel_queries l ↔ ∃ t, l[j]? = some (some t) := by
  unfold UpdateTransforms_wheel_queries
  rw [List.mem_filter, List.mem_range, List.getD_eq_getElem?_getD]
  constructor
  · rintro ⟨hj, hs⟩
    rw [List.getElem?_eq_getElem hj] at hs ⊢
    simp only [Option.getD_some] at hs
    obtain ⟨t, ht⟩ := Option.isSome_iff_exists.mp hs
    exact ⟨t, by rw [ht]⟩
  · rintro ⟨t, ht⟩
    have hj : j < l.length := by
      by_contra hn
      rw [List.getElem?_eq_none (by omega)] at ht
      exact Option.noConfusion ht
    refine ⟨hj, ?_⟩
    rw [ht]
    rfl

/-- C25 (as stated, refuted): `SetWheelTransform` with wheel index 4 on a list of four
transforms changes the list: it then has five entries, the new transform at index 4, and
`UpdateTransforms` queries the physics vehicle for wheel index 4. -/
theorem set_wheel_transform_grows_list :
    SetWheelTransform [some 10, some 11, some 12, some 13] (some 14) 4 ≠
      [some 10, some 11, some 12, some 13] ∧
    SetWheelTransform [some 10, some 11, some 12, some 13] (some 14) 4 =
      [some 10, some 11, some 12, some 13, some 14] ∧
    UpdateTransforms_wheel_queries
        (SetWheelTransform [some 10, some 11, some 12, some 13] (some 14) 4) =
      [0, 1, 2, 3, 4] := by
  have h : SetWheelTransform [some 10, some 11, some 12, some 13] (some 14) 4 =
      [some 10, some 11, some 12, some 13, some 14] := by decide
  refine ⟨?_, h, ?_⟩
  · rw [h]
    decide
  · rw [h]
    decide

/-- C25 (amended): `SetWheelTransform` has no upper bound on the wheel index: for every
index with `wheel_index + 1 < 2 ^ 32` (every `uint32_t` value but the largest, at which
`wheel_index + 1` wraps to 0 and which is left out here), also 4 and above, it grows the
list to `wheel_index + 1` entries when it is shorter, the new entries below the index
being null, and stores the transform at that index, leaving the entries at other indices
of the old list as they were; `UpdateTransforms` then queries the physics vehicle for
exactly the indices of the list whose transform is not null, that index included whenever
the stored transform is not null. -/
theorem set_wheel_transform_stores_at_index {T : Type} (m_vehicle_wheel_transforms : List (Option T))
    (transform : Option T) (wheel_index : Nat) (hidx : wheel_index + 1 < 2 ^ 32) :
    (SetWheelTransform m_vehicle_wheel_transforms transform wheel_index).length =
      max m_vehicle_wheel_transforms.length (wheel_index + 1) ∧
    (SetWheelTransform m_vehicle_wheel_transforms transform wheel_index)[wheel_index]? =
      some transform ∧
    (∀ j, j < m_vehicle_wheel_transforms.length → j ≠ wheel_index →
      (SetWheelTransform m_vehicle_wheel_transforms transform wheel_index)[j]? =
        m_vehicle_wheel_transforms[j]?) ∧
    (∀ j, m_vehicle_wheel_transforms.length ≤ j → j < wheel_index →
      (SetWheelTransform m_vehicle_wheel_transforms transform wheel_index)[j]? = some none) ∧
    (∀ j, j ∈ UpdateTransforms_wheel_queries
          (SetWheelTransform m_vehicle_wheel_transforms transform wheel_index) ↔
        ∃ t, (SetWheelTransform m_vehicle_wheel_transforms transform wheel_index)[j]? =
          some (some t)) ∧
    (transform.isSome = true →
      wheel_index ∈ UpdateTransforms_wheel_queries
        (SetWheelTransform m_vehicle_wheel_transforms transform wheel_index)) := by
  have hmod : (wheel_index + 1) % 2 ^ 32 = wheel_index + 1 := Nat.mod_eq_of_lt hidx
  have hlen : (SetWheelTransform m_vehicle_wheel_transforms transform wheel_index).length =
      max m_vehicle_wheel_transforms.length (wheel_index + 1) := by
    unfold SetWheelTransform
    simp only [List.length_set]
    split_ifs with h
    · rw [hmod, vector_resize_length]
      omega
    · omega
  have hlt : wheel_index <
      (SetWheelTransform m_vehicle_wheel_transforms transform wheel_index).length := by
    rw [hlen]
    omega
  have hget : (SetWheelTransform m_vehicle_wheel_transforms transform wheel_index)[wheel_index]? =
      some transform := by
    unfold SetWheelTransform at hlt ⊢
    simp only [List.length_set] at hlt
    rw [List.getElem?_set_self hlt]
  refine ⟨hlen, hget, ?_, ?_, ?_, ?_⟩
  · intro j hj hne
    unfold SetWheelTransform
    rw [List.getElem?_set_ne (Ne.symm hne)]
    split_ifs with h
    · rw [hmod]
      unfold vector_resize
      rw [List.getElem?_append_left (by rw [List.length_take]; omega),
        List.getElem?_take_of_lt (by omega)]
    · rfl
  · intro j hj hjw
    unfold SetWheelTransform
    rw [List.getElem?_set_ne (by omega)]
    rw [if_pos (by omega : wheel_index ≥ m_vehicle_wheel_transforms.length), hmod]
    unfold vector_resize
    rw [List.getElem?_append_right (by rw [List.length_take]; omega)]
    rw [List.getElem?_replicate]
    rw [if_pos (by rw [List.length_take]; omega)]
  · intro j
    exact UpdateTransforms_wheel_queries_mem _ j
  · intro hsome
    unfold UpdateTransforms_wheel_queries
    rw [List.mem_filter, List.mem_range]
    refine ⟨hlt, ?_⟩
    rw [List.getD_eq_getElem?_getD, hget]
    exact hsome

/-- Witness for C25 (amended): index 4 on a list of four transforms. -/
theorem set_wheel_transform_stores_at_index_witness :
    (SetWheelTransform [some 10, some 11, some 12, some 13] (some 14) 4)[4]? = some (some 14) :=
  (set_wheel_transform_stores_at_index [some 10, some 11, some 12, some 13] (some 14) 4
    (by norm_num)).2.1

end Car

end Spartan
